import Mathlib

/-!
Shallow embedding of the collision core of the THREE-game repository:
the `Collider` base class, the `SphereCollider`, `BoxCollider`,
`CapsuleCollider` and `CylinderCollider` shape classes, and the central
`CollisionSystem` (registration, pairwise `checkCollision` dispatch,
`getCollisionResponse`, `resolveCollision`, the per-tick `update` sweep
with enter/stay/exit callbacks, and removal).

JavaScript floating-point numbers are modelled as real numbers.  Object
identity (`this === other`, Map keys) is modelled through the `id` field:
the registry is a Map keyed by id, so registered colliders have pairwise
distinct ids.  Collision callbacks are modelled as an event trace: the
`update` function returns the list of callback invocations it performs,
in invocation order; a collider field records whether each callback slot
is set (a JS callback that is `null` is never invoked).
-/

open Classical

/-- Three-component vector over the reals, modelling `THREE.Vector3`. -/
@[ext]
structure Vec3 where
  x : ℝ
  y : ℝ
  z : ℝ
deriving Inhabited

namespace Vec3

/-- Componentwise addition (`Vector3.add` / `addVectors`). -/
def add (a b : Vec3) : Vec3 := ⟨a.x + b.x, a.y + b.y, a.z + b.z⟩

/-- Componentwise subtraction (`Vector3.sub` / `subVectors`). -/
def sub (a b : Vec3) : Vec3 := ⟨a.x - b.x, a.y - b.y, a.z - b.z⟩

/-- Scalar multiple (`Vector3.multiplyScalar`). -/
def smul (s : ℝ) (v : Vec3) : Vec3 := ⟨s * v.x, s * v.y, s * v.z⟩

/-- Dot product (`Vector3.dot`). -/
def dot (a b : Vec3) : ℝ := a.x * b.x + a.y * b.y + a.z * b.z

/-- Squared length (`Vector3.lengthSq`). -/
def lengthSq (v : Vec3) : ℝ := v.x * v.x + v.y * v.y + v.z * v.z

/-- Length (`Vector3.length`): the square root of the squared length. -/
noncomputable def length (v : Vec3) : ℝ := Real.sqrt v.lengthSq

/-- Distance between two points (`Vector3.distanceTo`). -/
noncomputable def distanceTo (a b : Vec3) : ℝ := (a.sub b).length

/-- THREE's `Vector3.normalize` divides by `this.length() || 1`: a vector of
length zero is divided by 1, so it stays the zero vector (no NaN). -/
noncomputable def normalize (v : Vec3) : Vec3 :=
  smul (1 / (if v.length = 0 then 1 else v.length)) v

/-- `Vector3.addScaledVector`. -/
def addScaledVector (a b : Vec3) (s : ℝ) : Vec3 := a.add (smul s b)

/-- `Vector3.negate`. -/
def negate (v : Vec3) : Vec3 := ⟨-v.x, -v.y, -v.z⟩

/-- The zero vector. -/
def zero : Vec3 := ⟨0, 0, 0⟩

end Vec3

/-- Math.max(lo, Math.min(v, hi)) — the clamp pattern used throughout the
collider code for closest-point computations. -/
noncomputable def clampBetween (lo v hi : ℝ) : ℝ := max lo (min v hi)

/-- Collision response record `{direction, overlap, normal}` returned by the
`getCollisionResponse*` methods.  `clone()` calls on vectors are value
copies, so `normal := direction.clone()` is plain equality of values. -/
structure Response where
  direction : Vec3
  overlap : ℝ
  normal : Vec3

namespace SphereCollider

/-- `SphereCollider.intersectsSphere` (SphereCollider.js): strict comparison
between the center distance and the combined radius. -/
noncomputable def intersectsSphere (thisPos : Vec3) (thisRadius : ℝ)
    (otherPos : Vec3) (otherRadius : ℝ) : Prop :=
  thisPos.distanceTo otherPos < thisRadius + otherRadius

/-- `SphereCollider.getCollisionResponse` (SphereCollider.js). -/
noncomputable def getCollisionResponse (thisPos : Vec3) (thisRadius : ℝ)
    (otherPos : Vec3) (otherRadius : ℝ) : Response :=
  let direction := (thisPos.sub otherPos).normalize
  let distance := thisPos.distanceTo otherPos
  let overlap := thisRadius + otherRadius - distance
  { direction := direction, overlap := max 0 overlap, normal := direction }

end SphereCollider

namespace BoxCollider

/-- `BoxCollider.updateBounds`: `min = worldPosition - size/2`. -/
def minOf (center size : Vec3) : Vec3 := center.sub (Vec3.smul 0.5 size)

/-- `BoxCollider.updateBounds`: `max = worldPosition + size/2`. -/
def maxOf (center size : Vec3) : Vec3 := center.add (Vec3.smul 0.5 size)

/-- `BoxCollider.intersectsBox` (BoxCollider.js): AABB overlap test with
non-strict comparisons (`<=` / `>=`). -/
def intersectsBox (c1 s1 c2 s2 : Vec3) : Prop :=
  (minOf c1 s1).x ≤ (maxOf c2 s2).x ∧ (maxOf c1 s1).x ≥ (minOf c2 s2).x ∧
  (minOf c1 s1).y ≤ (maxOf c2 s2).y ∧ (maxOf c1 s1).y ≥ (minOf c2 s2).y ∧
  (minOf c1 s1).z ≤ (maxOf c2 s2).z ∧ (maxOf c1 s1).z ≥ (minOf c2 s2).z

/-- Closest point of the AABB to a point, clamping each coordinate into the
box bounds (the pattern of `BoxCollider.intersectsSphere`). -/
noncomputable def closestPoint (center size p : Vec3) : Vec3 :=
  ⟨clampBetween (minOf center size).x p.x (maxOf center size).x,
   clampBetween (minOf center size).y p.y (maxOf center size).y,
   clampBetween (minOf center size).z p.z (maxOf center size).z⟩

/-- `BoxCollider.intersectsSphere` (BoxCollider.js): strict comparison
between the distance to the closest point on the AABB and the radius. -/
noncomputable def intersectsSphere (boxCenter boxSize spherePos : Vec3)
    (sphereRadius : ℝ) : Prop :=
  (closestPoint boxCenter boxSize spherePos).distanceTo spherePos < sphereRadius

/-- `BoxCollider.getCollisionResponseForSphere` (BoxCollider.js): direction
is the normalized vector from the closest point on the AABB toward the
sphere center; there is no special handling of the embedded case. -/
noncomputable def getCollisionResponseForSphere (boxCenter boxSize spherePos : Vec3)
    (sphereRadius : ℝ) : Response :=
  let closest := closestPoint boxCenter boxSize spherePos
  let direction := (spherePos.sub closest).normalize
  let distance := closest.distanceTo spherePos
  let overlap := sphereRadius - distance
  { direction := direction, overlap := max 0 overlap, normal := direction }

end BoxCollider

namespace CapsuleCollider

/-- `CapsuleCollider.updateCapsulePoints`: lower endpoint of the central
segment, `y -= (height - 2*radius)/2`. -/
noncomputable def pointA (pos : Vec3) (radius height : ℝ) : Vec3 :=
  ⟨pos.x, pos.y - (height - radius * 2) / 2, pos.z⟩

/-- `CapsuleCollider.updateCapsulePoints`: upper endpoint of the central segment, `y += (height - 2*radius)/2`. -/
noncomputable def pointB (pos : Vec3) (radius height : ℝ) : Vec3 :=
  ⟨pos.x, pos.y + (height - radius * 2) / 2, pos.z⟩

/-- `CapsuleCollider.closestPointOnSegment`.  JS divides by `seg.lengthSq()`
with no zero guard (NaN for a degenerate segment); here real division by
zero yields 0, i.e. the segment start. -/
noncomputable def closestPointOnSegment (point segStart segEnd : Vec3) : Vec3 :=
  let seg := segEnd.sub segStart
  let t := clampBetween 0 (((point.sub segStart).dot seg) / seg.lengthSq) 1
  segStart.addScaledVector seg t

/-- `CapsuleCollider.closestPointsOnSegments`: closest points between two 3D
segments, with the source's degenerate-length guards (`<= 0.0001`). -/
noncomputable def closestPointsOnSegments (a1 a2 b1 b2 : Vec3) : Vec3 × Vec3 :=
  let d1 := a2.sub a1
  let d2 := b2.sub b1
  let r := a1.sub b1
  let a := d1.dot d1
  let e := d2.dot d2
  let f := d2.dot r
  let st : ℝ × ℝ :=
    if a ≤ 0.0001 ∧ e ≤ 0.0001 then (0, 0)
    else if a ≤ 0.0001 then (0, clampBetween 0 (f / e) 1)
    else
      let c := d1.dot r
      if e ≤ 0.0001 then (clampBetween 0 (-c / a) 1, 0)
      else
        let b := d1.dot d2
        let denom := a * e - b * b
        let s0 := if denom ≠ 0 then clampBetween 0 ((b * f - c * e) / denom) 1 else 0
        let t0 := (b * s0 + f) / e
        if t0 < 0 then (clampBetween 0 (-c / a) 1, 0)
        else if t0 > 1 then (clampBetween 0 ((b - c) / a) 1, 1)
        else (s0, t0)
  (a1.addScaledVector (a2.sub a1) st.1, b1.addScaledVector (b2.sub b1) st.2)

/-- `CapsuleCollider.intersectsCapsule` (CapsuleCollider.js). -/
noncomputable def intersectsCapsule (thisPos : Vec3) (thisRadius thisHeight : ℝ)
    (otherPos : Vec3) (otherRadius otherHeight : ℝ) : Prop :=
  let pts := closestPointsOnSegments
    (pointA thisPos thisRadius thisHeight) (pointB thisPos thisRadius thisHeight)
    (pointA otherPos otherRadius otherHeight) (pointB otherPos otherRadius otherHeight)
  pts.1.distanceTo pts.2 < thisRadius + otherRadius

/-- `CapsuleCollider.intersectsSphere` (CapsuleCollider.js): distance from
the sphere center to the capsule's central segment, strict comparison. -/
noncomputable def intersectsSphere (thisPos : Vec3) (thisRadius thisHeight : ℝ)
    (spherePos : Vec3) (sphereRadius : ℝ) : Prop :=
  let closest := closestPointOnSegment spherePos
    (pointA thisPos thisRadius thisHeight) (pointB thisPos thisRadius thisHeight)
  closest.distanceTo spherePos < thisRadius + sphereRadius

end CapsuleCollider

namespace CylinderCollider

/-- `CylinderCollider.updateWorldPosition`: AABB min corner. -/
noncomputable def minOf (pos : Vec3) (radius height : ℝ) : Vec3 :=
  ⟨pos.x - radius, pos.y - height / 2, pos.z - radius⟩

/-- `CylinderCollider.updateWorldPosition`: AABB max corner. -/
noncomputable def maxOf (pos : Vec3) (radius height : ℝ) : Vec3 :=
  ⟨pos.x + radius, pos.y + height / 2, pos.z + radius⟩

/-- `CylinderCollider.intersectsSphere` (CylinderCollider.js): 2D horizontal
distance-to-axis pre-test, then distance from the closest point on the
cylinder surface (at the clamped vertical coordinate) to the sphere center.
The source's unused local `distance` (line 102) is dead code and omitted. -/
noncomputable def intersectsSphere (pos : Vec3) (radius height : ℝ)
    (spherePos : Vec3) (sphereRadius : ℝ) : Prop :=
  let closestY := clampBetween (minOf pos radius height).y spherePos.y (maxOf pos radius height).y
  let dx := spherePos.x - pos.x
  let dz := spherePos.z - pos.z
  let distSqHorizontal := dx * dx + dz * dz
  if distSqHorizontal > (radius + sphereRadius) ^ 2 then False
  else
    let closestOnAxis : Vec3 := ⟨pos.x, closestY, pos.z⟩
    let toSphere : Vec3 := ⟨dx, 0, dz⟩
    let closestOnSurface :=
      if toSphere.lengthSq > 0 then
        closestOnAxis.add (Vec3.smul radius toSphere.normalize)
      else closestOnAxis
    closestOnSurface.distanceTo spherePos < sphereRadius

/-- `CylinderCollider.intersectsBox` (CylinderCollider.js): AABB-vs-AABB
rejection pre-test (strict comparisons), then 2D circle-vs-rectangle
closest-point test in the XZ plane (strict comparison). -/
noncomputable def intersectsBox (pos : Vec3) (radius height : ℝ)
    (boxCenter boxSize : Vec3) : Prop :=
  let cmin := minOf pos radius height
  let cmax := maxOf pos radius height
  let bmin := BoxCollider.minOf boxCenter boxSize
  let bmax := BoxCollider.maxOf boxCenter boxSize
  if cmax.x < bmin.x ∨ cmin.x > bmax.x ∨ cmax.y < bmin.y ∨ cmin.y > bmax.y ∨
      cmax.z < bmin.z ∨ cmin.z > bmax.z then False
  else
    let closestX := clampBetween bmin.x pos.x bmax.x
    let closestZ := clampBetween bmin.z pos.z bmax.z
    let dx := closestX - pos.x
    let dz := closestZ - pos.z
    dx * dx + dz * dz < radius * radius

/-- `CylinderCollider.getCollisionResponseForBox` (CylinderCollider.js).
When the cylinder center is inside the box (strict bounds) or within
`0.001` of the closest point, the push-out direction is chosen along the
single axis of minimum distance to the six AABB faces. -/
noncomputable def getCollisionResponseForBox (pos : Vec3) (radius height : ℝ)
    (boxCenter boxSize : Vec3) : Response :=
  let bmin := BoxCollider.minOf boxCenter boxSize
  let bmax := BoxCollider.maxOf boxCenter boxSize
  let closest : Vec3 := ⟨clampBetween bmin.x pos.x bmax.x,
    clampBetween bmin.y pos.y bmax.y, clampBetween bmin.z pos.z bmax.z⟩
  let inside := bmin.x < pos.x ∧ pos.x < bmax.x ∧ bmin.y < pos.y ∧
    pos.y < bmax.y ∧ bmin.z < pos.z ∧ pos.z < bmax.z
  let direction0 := pos.sub closest
  let distance := direction0.length
  if inside ∨ distance < 0.001 then
    let dx1 := pos.x - bmin.x
    let dx2 := bmax.x - pos.x
    let dy1 := pos.y - bmin.y
    let dy2 := bmax.y - pos.y
    let dz1 := pos.z - bmin.z
    let dz2 := bmax.z - pos.z
    let minD := min dx1 (min dx2 (min dy1 (min dy2 (min dz1 dz2))))
    let dir : Vec3 :=
      if minD = dx1 then ⟨1, 0, 0⟩
      else if minD = dx2 then ⟨-1, 0, 0⟩
      else if minD = dy1 then ⟨0, 1, 0⟩
      else if minD = dy2 then ⟨0, -1, 0⟩
      else if minD = dz1 then ⟨0, 0, 1⟩
      else ⟨0, 0, -1⟩
    { direction := dir, overlap := minD + radius, normal := dir }
  else
    let direction := direction0.normalize
    let isVerticalCollision := bmin.x ≤ pos.x ∧ pos.x ≤ bmax.x ∧
      bmin.z ≤ pos.z ∧ pos.z ≤ bmax.z
    let overlap := if isVerticalCollision then height / 2 - |pos.y - closest.y|
      else radius - distance
    { direction := direction, overlap := max 0 overlap, normal := direction }

end CylinderCollider

/-- Shape data of the four collider classes.  Each class fixes its shape
parameters at construction (`SphereCollider.radius`, `BoxCollider.size`,
`CapsuleCollider.radius/height`, `CylinderCollider.radius/height`). -/
inductive Shape
  | sphere (radius : ℝ)
  | box (size : Vec3)
  | capsule (radius height : ℝ)
  | cylinder (radius height : ℝ)
deriving Inhabited

/-- Runtime `type` tags that actually occur on colliders.  `ColliderType`
(Collider.js) defines only `SPHERE`, `BOX` and `CAPSULE`; there is no
`CYLINDER` member. -/
inductive JsType
  | sphere
  | box
  | capsule
deriving DecidableEq, Inhabited

/-- Runtime `type` field of each collider class.  `CylinderCollider` passes
`type: ColliderType.CYLINDER`, which is `undefined` because `ColliderType`
has no `CYLINDER` member, so the base `Collider` constructor falls back to
`options.type || ColliderType.SPHERE`: a cylinder is tagged `"sphere"`. -/
def Shape.typeTag : Shape → JsType
  | .sphere _ => .sphere
  | .box _ => .box
  | .capsule _ _ => .capsule
  | .cylinder _ _ => .sphere

/-- The `radius` field read off another collider during dispatch.  Boxes
have no `radius` field (reading it yields `undefined` in JS); every
dispatch path modelled here reads `radius` only from sphere, capsule or
cylinder colliders, or guards it with `|| 0`, so boxes map to 0. -/
def Shape.radius : Shape → ℝ
  | .sphere r => r
  | .box _ => 0
  | .capsule r _ => r
  | .cylinder r _ => r

/-- A registered collider (Collider.js base-class state plus the shape data
of its class).  `parent` is the position of the owner transform
(`this.parent.position`), or `none` when the collider has no parent.  The
three `onCollision*` booleans record whether the corresponding callback
slot is set.  `userData` is opaque to the core and omitted. -/
structure Collider where
  id : ℕ
  shape : Shape
  layer : ℕ
  collidesWithMask : ℕ
  isTrigger : Bool
  isStatic : Bool
  enabled : Bool
  parent : Option Vec3
  offset : Vec3
  worldPosition : Vec3
  onCollisionEnter : Bool
  onCollisionStay : Bool
  onCollisionExit : Bool
  activeCollisions : List ℕ
deriving Inhabited

namespace Collider

/-- `Collider.updateWorldPosition`: when there is a parent, recompute
`worldPosition = parent.position + offset`; otherwise leave it stale. -/
def updateWorldPosition (c : Collider) : Collider :=
  match c.parent with
  | some p => { c with worldPosition := p.add c.offset }
  | none => c

/-- `Collider.canCollideWith` (Collider.js): enabled flags, self check
(`this === other`, modelled as id equality since registered colliders have
unique ids), then bidirectional layer/mask filtering. -/
def canCollideWith (c other : Collider) : Bool :=
  if !c.enabled || !other.enabled then false
  else if c.id = other.id then false
  else decide (c.collidesWithMask &&& other.layer ≠ 0) &&
    decide (other.collidesWithMask &&& c.layer ≠ 0)

/-- The runtime `type` tag of a collider. -/
def typeTag (c : Collider) : JsType := c.shape.typeTag

/-- The `radius` field of a collider (see `Shape.radius`). -/
def radius (c : Collider) : ℝ := c.shape.radius

/-- Dynamic dispatch of `a.intersectsSphere(arg)`: the method that runs is
the one of `a`'s class.  The argument is read only for its
`worldPosition` and `radius` fields (call sites also pass the literal
`{worldPosition, radius}` objects built in `checkCollision`). -/
noncomputable def intersectsSphereDyn (a : Collider) (argPos : Vec3) (argRadius : ℝ) : Prop :=
  match a.shape with
  | .sphere r => SphereCollider.intersectsSphere a.worldPosition r argPos argRadius
  | .box s => BoxCollider.intersectsSphere a.worldPosition s argPos argRadius
  | .capsule r h => CapsuleCollider.intersectsSphere a.worldPosition r h argPos argRadius
  | .cylinder r h => CylinderCollider.intersectsSphere a.worldPosition r h argPos argRadius

/-- Dynamic dispatch of `a.intersectsCapsule(b)`.  Only capsule-tagged
colliders reach this call, and only `CapsuleCollider` carries the capsule
tag, so other shapes are unreachable (they would throw in JS). -/
noncomputable def intersectsCapsuleDyn (a b : Collider) : Prop :=
  match a.shape, b.shape with
  | .capsule r h, .capsule r' h' =>
    CapsuleCollider.intersectsCapsule a.worldPosition r h b.worldPosition r' h'
  | _, _ => False

/-- Dynamic dispatch of `a.intersectsBox(b)`.  Only box-tagged colliders
reach this call, and only `BoxCollider` carries the box tag.  (The
`CylinderCollider.intersectsBox` routine is never reached through system
dispatch, because cylinders are tagged `"sphere"`.) -/
noncomputable def intersectsBoxDyn (a b : Collider) : Prop :=
  match a.shape, b.shape with
  | .box s, .box s' => BoxCollider.intersectsBox a.worldPosition s b.worldPosition s'
  | _, _ => False

/-- `Collider.dispose`: clears the collider's own `activeCollisions` set
(debug-mesh cleanup has no model). -/
def dispose (c : Collider) : Collider := { c with activeCollisions := [] }

end Collider

namespace CollisionSystem

/-- The type-dispatch portion of `CollisionSystem.checkCollision`
(CollisionSystem.js lines 87-131), applied after both world positions have
been refreshed.  Unmatched tag pairs fall through to `false`. -/
noncomputable def narrowTest (a b : Collider) : Prop :=
  if a.typeTag = .sphere ∧ b.typeTag = .sphere then
    a.intersectsSphereDyn b.worldPosition b.radius
  else if a.typeTag = .capsule ∧ b.typeTag = .capsule then
    a.intersectsCapsuleDyn b
  else if a.typeTag = .capsule ∧ b.typeTag = .sphere then
    a.intersectsSphereDyn b.worldPosition b.radius
  else if a.typeTag = .sphere ∧ b.typeTag = .capsule then
    b.intersectsSphereDyn a.worldPosition a.radius
  else if a.typeTag = .box ∧ b.typeTag = .box then
    a.intersectsBoxDyn b
  else if a.typeTag = .box ∧ b.typeTag = .sphere then
    a.intersectsSphereDyn b.worldPosition b.radius
  else if a.typeTag = .sphere ∧ b.typeTag = .box then
    b.intersectsSphereDyn a.worldPosition a.radius
  else if a.typeTag = .box ∧ b.typeTag = .capsule then
    a.intersectsSphereDyn b.worldPosition b.radius
  else if a.typeTag = .capsule ∧ b.typeTag = .box then
    b.intersectsSphereDyn a.worldPosition a.radius
  else False

/-- `CollisionSystem.checkCollision`: layer/identity filtering, then both
world positions are refreshed, then shape dispatch by runtime type tag. -/
noncomputable def checkCollision (a b : Collider) : Prop :=
  a.canCollideWith b = true ∧
    narrowTest a.updateWorldPosition b.updateWorldPosition

/-- Dynamic dispatch of `a.getCollisionResponse(b)` for a sphere-tagged
receiver.  A `SphereCollider` runs its own method; a `CylinderCollider`
(also sphere-tagged) inherits no such method, so in JS the call throws a
TypeError — modelled as a zero response, never reached by any claim. -/
noncomputable def sphereTagResponseDyn (a b : Collider) : Response :=
  match a.shape with
  | .sphere r => SphereCollider.getCollisionResponse a.worldPosition r b.worldPosition b.radius
  | _ => { direction := Vec3.zero, overlap := 0, normal := Vec3.zero }

/-- Dynamic dispatch of `a.getCollisionResponse(b)` for a capsule-tagged
receiver (`CapsuleCollider.getCollisionResponse`): branches on whether the
other collider is capsule-tagged; `other.radius || 0` guards the radius. -/
noncomputable def capsuleResponseDyn (a b : Collider) : Response :=
  match a.shape with
  | .capsule r h =>
    let pts :=
      if b.typeTag = .capsule then
        match b.shape with
        | .capsule r' h' =>
          CapsuleCollider.closestPointsOnSegments
            (CapsuleCollider.pointA a.worldPosition r h)
            (CapsuleCollider.pointB a.worldPosition r h)
            (CapsuleCollider.pointA b.worldPosition r' h')
            (CapsuleCollider.pointB b.worldPosition r' h')
        | _ => (Vec3.zero, Vec3.zero)
      else
        (CapsuleCollider.closestPointOnSegment b.worldPosition
          (CapsuleCollider.pointA a.worldPosition r h)
          (CapsuleCollider.pointB a.worldPosition r h),
         b.worldPosition)
    let direction := (pts.1.sub pts.2).normalize
    let distance := pts.1.distanceTo pts.2
    let overlap := r + b.radius - distance
    { direction := direction, overlap := max 0 overlap, normal := direction }
  | _ => { direction := Vec3.zero, overlap := 0, normal := Vec3.zero }

/-- `CollisionSystem.getCollisionResponse` (CollisionSystem.js lines
137-167): refreshes both world positions, dispatches on runtime type tags,
and otherwise falls back to a normalized center-difference direction with
a fixed overlap of `0.1`. -/
noncomputable def getCollisionResponse (a b : Collider) : Response :=
  let a' := a.updateWorldPosition
  let b' := b.updateWorldPosition
  if a'.typeTag = .sphere ∧ b'.typeTag = .sphere then
    sphereTagResponseDyn a' b'
  else if a'.typeTag = .sphere ∧ b'.typeTag = .box then
    match b'.shape with
    | .box s => BoxCollider.getCollisionResponseForSphere b'.worldPosition s
        a'.worldPosition a'.radius
    | _ => { direction := Vec3.zero, overlap := 0, normal := Vec3.zero }
  else if a'.typeTag = .capsule then
    capsuleResponseDyn a' b'
  else if a'.typeTag = .box ∧ b'.typeTag = .sphere then
    match a'.shape with
    | .box s => BoxCollider.getCollisionResponseForSphere a'.worldPosition s
        b'.worldPosition b'.radius
    | _ => { direction := Vec3.zero, overlap := 0, normal := Vec3.zero }
  else
    let direction := (a'.worldPosition.sub b'.worldPosition).normalize
    { direction := direction, overlap := 0.1, normal := direction }

/-- `CollisionSystem.resolveCollision` (CollisionSystem.js lines 172-199):
no correction for triggers or static-static pairs; one static side makes
the other absorb the full push vector; otherwise each side absorbs half
(`halfPush` is `pushVector` scaled in place by `0.5`).  Only the parent
transform positions are written, never `worldPosition`. -/
noncomputable def resolveCollision (a b : Collider) (response : Response) :
    Collider × Collider :=
  if a.isTrigger || b.isTrigger then (a, b)
  else if a.isStatic && b.isStatic then (a, b)
  else
    let pushVector := Vec3.smul response.overlap response.direction
    if a.isStatic then
      (a, { b with parent := b.parent.map (fun p => p.sub pushVector) })
    else if b.isStatic then
      ({ a with parent := a.parent.map (fun p => p.add pushVector) }, b)
    else
      let halfPush := Vec3.smul 0.5 pushVector
      ({ a with parent := a.parent.map (fun p => p.add halfPush) },
       { b with parent := b.parent.map (fun p => p.sub halfPush) })

end CollisionSystem

/-- Kind of a collision callback invocation. -/
inductive EventKind
  | enter
  | stay
  | exit
deriving DecidableEq, Inhabited

/-- One callback invocation performed by the sweep: the receiving
collider's id, the callback kind, and the other collider's id. -/
structure Event where
  receiver : ℕ
  kind : EventKind
  other : ℕ
deriving DecidableEq, Inhabited

namespace CollisionSystem

/-- Canonical unordered-pair key, modelling the `pairKey` strings
`"a:b"` / `"b:a"` chosen by comparing the two ids. -/
def pairKey (i j : ℕ) : ℕ × ℕ := if i < j then (i, j) else (j, i)

/-- `Set.add`: append the id if it is not already present. -/
def addActive (c : Collider) (otherId : ℕ) : Collider :=
  if otherId ∈ c.activeCollisions then c
  else { c with activeCollisions := c.activeCollisions ++ [otherId] }

/-- Mutable state threaded through the pairwise sweep: the collider array
(`collidersArray`, mutated in place in JS), the `currentCollisions` key
set, and the callback invocations performed so far. -/
structure SweepState where
  arr : List Collider
  current : List (ℕ × ℕ)
  events : List Event

/-- One iteration of the pairwise loop of `CollisionSystem.update` on the
pair of indices `(i, j)`: layer filtering, world-position refresh (stored
back into the array, as `checkCollision` mutates the colliders), narrow
test, enter/stay bookkeeping and callbacks, and positional resolution. -/
noncomputable def pairStep (s : SweepState) (i j : ℕ) : SweepState :=
  let a := s.arr.getD i default
  let b := s.arr.getD j default
  if a.canCollideWith b = true then
    let a1 := a.updateWorldPosition
    let b1 := b.updateWorldPosition
    let arr1 := (s.arr.set i a1).set j b1
    if narrowTest a1 b1 then
      let key := pairKey a1.id b1.id
      let current1 := if key ∈ s.current then s.current else s.current ++ [key]
      let wasCollidingA := b1.id ∈ a1.activeCollisions
      let response := getCollisionResponse a1 b1
      let a2 := if wasCollidingA then a1 else addActive a1 b1.id
      let b2 := if wasCollidingA then b1 else addActive b1 a1.id
      let evKind := if wasCollidingA then EventKind.stay else EventKind.enter
      let hasA := if wasCollidingA then a1.onCollisionStay else a1.onCollisionEnter
      let hasB := if wasCollidingA then b1.onCollisionStay else b1.onCollisionEnter
      let evs := (if hasA then [⟨a1.id, evKind, b1.id⟩] else []) ++
        (if hasB then [⟨b1.id, evKind, a1.id⟩] else [])
      let resolved := resolveCollision a2 b2 response
      { arr := (arr1.set i resolved.1).set j resolved.2,
        current := current1, events := s.events ++ evs }
    else { s with arr := arr1 }
  else s

/-- The `i < j` double loop of `CollisionSystem.update` over all index
pairs of the collider array, in ascending order. -/
noncomputable def pairLoop (s : SweepState) (n : ℕ) : SweepState :=
  (List.range n).foldl (fun s1 i =>
    (List.range n).foldl (fun s2 j => if i < j then pairStep s2 i j else s2) s1) s

/-- The exit pass of `CollisionSystem.update` for one collider: every
tracked id whose collider is no longer registered is purged silently
(the `!other` branch fires no callback), and every tracked id whose pair
is not among this tick's collisions is purged with an `onCollisionExit`
callback. -/
def exitPassOne (ids : List ℕ) (current : List (ℕ × ℕ)) (c : Collider) :
    Collider × List Event :=
  let evs := c.activeCollisions.filterMap (fun otherId =>
    if otherId ∈ ids ∧ pairKey c.id otherId ∉ current ∧ c.onCollisionExit = true then
      some ⟨c.id, EventKind.exit, otherId⟩
    else none)
  let keep := c.activeCollisions.filter
    (fun otherId => decide (otherId ∈ ids ∧ pairKey c.id otherId ∈ current))
  ({ c with activeCollisions := keep }, evs)

/-- The exit pass over the whole collider array, in array order. -/
def exitLoop (ids : List ℕ) (current : List (ℕ × ℕ)) (arr : List Collider) :
    List Collider × List Event :=
  arr.foldl (fun acc c =>
    let pr := exitPassOne ids current c
    (acc.1 ++ [pr.1], acc.2 ++ pr.2)) ([], [])

/-- `CollisionSystem.update` (CollisionSystem.js lines 204-288): refresh
every world position, run the pairwise sweep, then the exit pass.  The
returned event list is every callback invocation in order.  (Statistics
and debug meshes have no model.) -/
noncomputable def update (colliders : List Collider) : List Collider × List Event :=
  let arr0 := colliders.map Collider.updateWorldPosition
  let s1 := pairLoop ⟨arr0, [], []⟩ arr0.length
  let ex := exitLoop (s1.arr.map Collider.id) s1.current s1.arr
  (ex.1, s1.events ++ ex.2)

/-- `CollisionSystem.addCollider` (CollisionSystem.js lines 24-38): a
duplicate id is rejected with a `console.warn` (the returned flag) and the
registry is left untouched; otherwise the collider is inserted. -/
def addCollider (colliders : List Collider) (c : Collider) : List Collider × Bool :=
  if c.id ∈ colliders.map Collider.id then (colliders, true)
  else (colliders ++ [c], false)

/-- `CollisionSystem.getCollider`: registry lookup by id. -/
def getCollider (colliders : List Collider) (colliderId : ℕ) : Option Collider :=
  colliders.find? (fun c => decide (c.id = colliderId))

/-- `CollisionSystem.removeCollider` (CollisionSystem.js lines 43-52): if
the id is registered, the collider is disposed (its own active set is
cleared) and dropped from the registry; nothing else changes — in
particular no other collider's `activeCollisions` is touched and no
callback fires. -/
def removeCollider (colliders : List Collider) (colliderId : ℕ) : List Collider :=
  if colliderId ∈ colliders.map Collider.id then
    colliders.filter (fun c => decide (c.id ≠ colliderId))
  else colliders

/-- Iterated ticks: run the sweep `n` times (positions evolve only through
resolution). -/
noncomputable def iterUpdate : ℕ → List Collider → List Collider
  | 0, st => st
  | n + 1, st => iterUpdate n (update st).1

end CollisionSystem

/-- External owners repositioning the two registered transforms before a
tick: set the two parents' positions (a two-collider registry). -/
def setPair (arr : List Collider) (p q : Vec3) : List Collider :=
  match arr with
  | [a, b] => [{ a with parent := some p }, { b with parent := some q }]
  | l => l

/-- Run one simulation tick per entry of `moves`: the external owners place
the two parent transforms, then `CollisionSystem.update` runs.  Returns
the final registry and the concatenated event trace. -/
noncomputable def runTicks (st : List Collider) : List (Vec3 × Vec3) → List Collider × List Event
  | [] => (st, [])
  | t :: ts =>
    let stepped := CollisionSystem.update (setPair st t.1 t.2)
    let rest := runTicks stepped.1 ts
    (rest.1, stepped.2 ++ rest.2)

/-- Number of callback invocations delivered to `r` about `o` with kind `k`. -/
def countEvents (evs : List Event) (r : ℕ) (k : EventKind) (o : ℕ) : ℕ :=
  (evs.filter (fun e => decide (e.receiver = r ∧ e.kind = k ∧ e.other = o))).length

/-- Tuple of the collider fields the sweep never writes (everything except
`parent`, `worldPosition` and `activeCollisions`). -/
def Collider.core (c : Collider) :
    ℕ × Shape × ℕ × ℕ × Bool × Bool × Bool × Vec3 × Bool × Bool × Bool :=
  (c.id, c.shape, c.layer, c.collidesWithMask, c.isTrigger, c.isStatic, c.enabled,
   c.offset, c.onCollisionEnter, c.onCollisionStay, c.onCollisionExit)

/-- `c'` agrees with `c` on every field the sweep never writes. -/
def staticEq (c c' : Collider) : Prop := c'.core = c.core

/-- All three callback slots of a collider are set. -/
def allCallbacks (c : Collider) : Prop :=
  c.onCollisionEnter = true ∧ c.onCollisionStay = true ∧ c.onCollisionExit = true

/-- Whether the pair `(A, B)` geometrically collides on a tick whose
external move places the parents at `t.1` and `t.2`.  `checkCollision`
refreshes from the parent, so this depends only on the colliders' static
fields and the tick's positions. -/
noncomputable def pairOverlap (A B : Collider) (t : Vec3 × Vec3) : Prop :=
  CollisionSystem.checkCollision { A with parent := some t.1 } { B with parent := some t.2 }

/-- Event block of one staying tick for the pair `(A, B)`, repeated `k`
times. -/
def repeatStays (aId bId : ℕ) : ℕ → List Event
  | 0 => []
  | k + 1 => [⟨aId, EventKind.stay, bId⟩, ⟨bId, EventKind.stay, aId⟩] ++ repeatStays aId bId k

/-- View of a `Vec3` in three-dimensional Euclidean space. -/
noncomputable def Vec3.toE (v : Vec3) : EuclideanSpace ℝ (Fin 3) := ![v.x, v.y, v.z]

/-- No collider in the registry tracks its own id as an active collision. -/
def SelfFree (arr : List Collider) : Prop :=
  ∀ c ∈ arr, c.id ∉ c.activeCollisions

/-- The registry holds pairwise distinct ids (it is a Map keyed by id). -/
def NodupIds (arr : List Collider) : Prop :=
  (arr.map Collider.id).Nodup

/-- A unit vector along a single coordinate axis. -/
def Vec3.isUnitAxis (v : Vec3) : Prop :=
  v = ⟨1, 0, 0⟩ ∨ v = ⟨-1, 0, 0⟩ ∨ v = ⟨0, 1, 0⟩ ∨
  v = ⟨0, -1, 0⟩ ∨ v = ⟨0, 0, 1⟩ ∨ v = ⟨0, 0, -1⟩

/-- The six face distances of `CylinderCollider.getCollisionResponseForBox`
from a point to the faces of a box's AABB, and their minimum. -/
noncomputable def faceDistMin (pos boxCenter boxSize : Vec3) : ℝ :=
  let bmin := BoxCollider.minOf boxCenter boxSize
  let bmax := BoxCollider.maxOf boxCenter boxSize
  min (pos.x - bmin.x) (min (bmax.x - pos.x) (min (pos.y - bmin.y)
    (min (bmax.y - pos.y) (min (pos.z - bmin.z) (bmax.z - pos.z)))))

/-- The face distance selected by a unit axis direction: the distance from
the point to the box face that the axis pushes away from. -/
noncomputable def axisFaceDist (pos boxCenter boxSize v : Vec3) : ℝ :=
  let bmin := BoxCollider.minOf boxCenter boxSize
  let bmax := BoxCollider.maxOf boxCenter boxSize
  if v = ⟨1, 0, 0⟩ then pos.x - bmin.x
  else if v = ⟨-1, 0, 0⟩ then bmax.x - pos.x
  else if v = ⟨0, 1, 0⟩ then pos.y - bmin.y
  else if v = ⟨0, -1, 0⟩ then bmax.y - pos.y
  else if v = ⟨0, 0, 1⟩ then pos.z - bmin.z
  else if v = ⟨0, 0, -1⟩ then bmax.z - pos.z
  else 0

/-- Two-collider registry in a known lifecycle state: the registry is
`[A', B']` where each side agrees with the original collider on every
field the sweep never writes, and the pair's active sets are both tracking
(`act = true`) or both clear (`act = false`). -/
def pairState (A B : Collider) (act : Bool) (st : List Collider) : Prop :=
  ∃ A' B', st = [A', B'] ∧ staticEq A A' ∧ staticEq B B' ∧
    A'.activeCollisions = (if act then [B.id] else []) ∧
    B'.activeCollisions = (if act then [A.id] else [])

/-- Default dynamic collider used in concrete scenarios: enabled, layer 1,
mask 1, not a trigger, not static, all callbacks set, no parent. -/
def mkDyn (i : ℕ) (sh : Shape) : Collider :=
  { id := i, shape := sh, layer := 1, collidesWithMask := 1, isTrigger := false,
    isStatic := false, enabled := true, parent := none, offset := Vec3.zero,
    worldPosition := Vec3.zero, onCollisionEnter := true, onCollisionStay := true,
    onCollisionExit := true, activeCollisions := [] }

/-- Concrete collider pinned at a world position (no parent, so
`updateWorldPosition` leaves the position in place). -/
def mkAt (i : ℕ) (sh : Shape) (pos : Vec3) : Collider :=
  { mkDyn i sh with worldPosition := pos }

/-- Concrete cylinder for the cylinder-box dispatch scenario: radius 1,
height 4, centered at the origin. -/
def cexCyl : Collider := mkAt 1 (Shape.cylinder 1 4) ⟨0, 0, 0⟩

/-- Concrete box for the cylinder-box dispatch scenario: unit cube resting
on top of the cylinder (its AABB touches the cylinder's AABB at y = 2). -/
def cexBox : Collider := mkAt 2 (Shape.box ⟨1, 1, 1⟩) ⟨0, 2.5, 0⟩

/-- Concrete pair mid-overlap for the removal scenario: each side's active
set holds the other's id. -/
def remA : Collider := { mkDyn 1 (Shape.sphere 1) with activeCollisions := [2] }

/-- Partner of `remA` in the removal scenario. -/
def remB : Collider := { mkDyn 2 (Shape.sphere 1) with activeCollisions := [1] }

/-- Concrete dynamic sphere of radius 1 (id 1) for lifecycle scenarios. -/
def w5A : Collider := mkDyn 1 (Shape.sphere 1)

/-- Concrete dynamic sphere of radius 1 (id 2) for lifecycle scenarios. -/
def w5B : Collider := mkDyn 2 (Shape.sphere 1)

/-- Concrete box collider at the origin with half-extents 1 (size 2). -/
def c8Box : Collider := mkAt 1 (Shape.box ⟨2, 2, 2⟩) ⟨0, 0, 0⟩

/-- Concrete sphere of radius 0.5 at `(0, 0, 1.3)` (the spec's own box-vs-
sphere scenario). -/
def c8Sph : Collider := mkAt 2 (Shape.sphere 0.5) ⟨0, 0, 1.3⟩

theorem Vec3.lengthSq_nonneg (v : Vec3) : 0 ≤ v.lengthSq := by
  unfold Vec3.lengthSq
  have hx := mul_self_nonneg v.x
  have hy := mul_self_nonneg v.y
  have hz := mul_self_nonneg v.z
  linarith

theorem Vec3.lengthSq_eq_zero_iff (v : Vec3) : v.lengthSq = 0 ↔ v = Vec3.zero := by
  constructor
  · intro h
    have h' : v.x * v.x + v.y * v.y + v.z * v.z = 0 := h
    have hx : v.x = 0 := by nlinarith
    have hy : v.y = 0 := by nlinarith
    have hz : v.z = 0 := by nlinarith
    unfold Vec3.zero
    exact Vec3.ext hx hy hz
  · intro h
    rw [h]
    norm_num [Vec3.lengthSq, Vec3.zero]

theorem Vec3.length_eq_zero_iff (v : Vec3) : v.length = 0 ↔ v = Vec3.zero := by
  unfold Vec3.length
  rw [Real.sqrt_eq_zero']
  constructor
  · intro h
    exact (Vec3.lengthSq_eq_zero_iff v).1 (le_antisymm h (Vec3.lengthSq_nonneg v))
  · intro h
    rw [(Vec3.lengthSq_eq_zero_iff v).2 h]

theorem Vec3.length_pos_of_ne (v : Vec3) (h : v ≠ Vec3.zero) : 0 < v.length :=
  lt_of_le_of_ne (Real.sqrt_nonneg _)
    (fun h0 => h ((Vec3.length_eq_zero_iff v).1 h0.symm))

theorem Vec3.lengthSq_smul (s : ℝ) (v : Vec3) :
    (Vec3.smul s v).lengthSq = s ^ 2 * v.lengthSq := by
  unfold Vec3.lengthSq Vec3.smul
  ring

theorem Vec3.normalize_of_ne (v : Vec3) (h : v ≠ Vec3.zero) :
    v.normalize = Vec3.smul (1 / v.length) v := by
  unfold Vec3.normalize
  rw [if_neg (fun h0 => h ((Vec3.length_eq_zero_iff v).1 h0))]

theorem Vec3.normalize_lengthSq (v : Vec3) (h : v ≠ Vec3.zero) :
    v.normalize.lengthSq = 1 := by
  have h2 : v.length ^ 2 = v.lengthSq := Real.sq_sqrt (Vec3.lengthSq_nonneg v)
  have h3 : v.lengthSq ≠ 0 := fun h0 => h ((Vec3.lengthSq_eq_zero_iff v).1 h0)
  rw [Vec3.normalize_of_ne v h, Vec3.lengthSq_smul, div_pow, one_pow, h2, one_div,
    inv_mul_cancel₀ h3]

theorem Vec3.normalize_pos_smul (v : Vec3) (h : v ≠ Vec3.zero) :
    ∃ s : ℝ, 0 < s ∧ v.normalize = Vec3.smul s v :=
  ⟨1 / v.length, one_div_pos.mpr (Vec3.length_pos_of_ne v h), Vec3.normalize_of_ne v h⟩

theorem Vec3.sub_self_eq_zero (a : Vec3) : a.sub a = Vec3.zero := by
  unfold Vec3.sub Vec3.zero
  norm_num

theorem Vec3.sub_eq_zero_iff (a b : Vec3) : a.sub b = Vec3.zero ↔ a = b := by
  unfold Vec3.sub Vec3.zero
  simp [Vec3.ext_iff, sub_eq_zero]

theorem Vec3.normalize_zero : Vec3.normalize Vec3.zero = Vec3.zero := by
  unfold Vec3.normalize
  rw [if_pos ((Vec3.length_eq_zero_iff Vec3.zero).2 rfl)]
  norm_num [Vec3.smul, Vec3.zero]

theorem Vec3.dist_toE (a b : Vec3) : dist a.toE b.toE = a.distanceTo b := by
  rw [EuclideanSpace.dist_eq]
  unfold Vec3.toE Vec3.distanceTo Vec3.length Vec3.lengthSq Vec3.sub
  rw [Fin.sum_univ_three]
  simp only [Matrix.cons_val_zero, Matrix.cons_val_one, Matrix.head_cons,
    Matrix.cons_val_two, Matrix.tail_cons, Real.dist_eq, sq_abs]
  ring_nf

/-- C1: for spheres with up-to-date world positions, the sphere-sphere
overlap test holds exactly when the Euclidean distance between the centers
is strictly below the combined radius. -/
theorem spec_C1 (pa pb : Vec3) (ra rb : ℝ) :
    SphereCollider.intersectsSphere pa ra pb rb ↔ dist pa.toE pb.toE < ra + rb := by
  unfold SphereCollider.intersectsSphere
  rw [Vec3.dist_toE]

/-- C9: registering a collider with an already-registered id is rejected
with a diagnostic, the registry (hence the original registration) is
unchanged, and no state is mutated. -/
theorem spec_C9 (colliders : List Collider) (c : Collider)
    (h : c.id ∈ colliders.map Collider.id) :
    CollisionSystem.addCollider colliders c = (colliders, true) ∧
    CollisionSystem.getCollider (CollisionSystem.addCollider colliders c).1 c.id =
      CollisionSystem.getCollider colliders c.id := by
  unfold CollisionSystem.addCollider
  rw [if_pos h]
  exact ⟨rfl, rfl⟩

theorem spec_C9_witness :
    ((mkDyn 1 (Shape.sphere 2)).id ∈ [w5A].map Collider.id) ∧
    CollisionSystem.addCollider [w5A] (mkDyn 1 (Shape.sphere 2)) = ([w5A], true) := by
  have h : (mkDyn 1 (Shape.sphere 2)).id ∈ [w5A].map Collider.id := by
    simp [mkDyn, w5A]
  exact ⟨h, (spec_C9 [w5A] (mkDyn 1 (Shape.sphere 2)) h).1⟩

/-- C4: resolution policy — triggers and static-static pairs move nothing;
exactly one static side pushes the full penetration vector onto the other
side's parent transform; two dynamic sides each absorb half; and
resolution never writes `worldPosition`. -/
theorem spec_C4 (a b : Collider) (r : Response) :
    ((a.isTrigger = true ∨ b.isTrigger = true) →
      (CollisionSystem.resolveCollision a b r).1.parent = a.parent ∧
      (CollisionSystem.resolveCollision a b r).2.parent = b.parent) ∧
    ((a.isStatic = true ∧ b.isStatic = true) →
      (CollisionSystem.resolveCollision a b r).1.parent = a.parent ∧
      (CollisionSystem.resolveCollision a b r).2.parent = b.parent) ∧
    (a.isTrigger = false → b.isTrigger = false → a.isStatic = true → b.isStatic = false →
      (CollisionSystem.resolveCollision a b r).1.parent = a.parent ∧
      (CollisionSystem.resolveCollision a b r).2.parent =
        b.parent.map (fun p => p.sub (Vec3.smul r.overlap r.direction))) ∧
    (a.isTrigger = false → b.isTrigger = false → a.isStatic = false → b.isStatic = true →
      (CollisionSystem.resolveCollision a b r).1.parent =
        a.parent.map (fun p => p.add (Vec3.smul r.overlap r.direction)) ∧
      (CollisionSystem.resolveCollision a b r).2.parent = b.parent) ∧
    (a.isTrigger = false → b.isTrigger = false → a.isStatic = false → b.isStatic = false →
      (CollisionSystem.resolveCollision a b r).1.parent =
        a.parent.map (fun p => p.add (Vec3.smul 0.5 (Vec3.smul r.overlap r.direction))) ∧
      (CollisionSystem.resolveCollision a b r).2.parent =
        b.parent.map (fun p => p.sub (Vec3.smul 0.5 (Vec3.smul r.overlap r.direction)))) ∧
    ((CollisionSystem.resolveCollision a b r).1.worldPosition = a.worldPosition ∧
     (CollisionSystem.resolveCollision a b r).2.worldPosition = b.worldPosition) := by
  refine ⟨?_, ?_, ?_, ?_, ?_, ?_⟩
  · rintro (h | h) <;> simp [CollisionSystem.resolveCollision, h]
  · rintro ⟨h1, h2⟩
    simp [CollisionSystem.resolveCollision, h1, h2]
  · intro h1 h2 h3 h4
    simp [CollisionSystem.resolveCollision, h1, h2, h3, h4]
  · intro h1 h2 h3 h4
    simp [CollisionSystem.resolveCollision, h1, h2, h3, h4]
  · intro h1 h2 h3 h4
    simp [CollisionSystem.resolveCollision, h1, h2, h3, h4]
  · unfold CollisionSystem.resolveCollision
    split_ifs <;> simp

theorem spec_C4_witness :
    ({ mkDyn 1 (Shape.sphere 1) with isTrigger := true }.isTrigger = true ∨
      (mkDyn 2 (Shape.sphere 1)).isTrigger = true) ∧
    ((CollisionSystem.resolveCollision { mkDyn 1 (Shape.sphere 1) with isTrigger := true }
        (mkDyn 2 (Shape.sphere 1)) ⟨⟨1, 0, 0⟩, 1, ⟨1, 0, 0⟩⟩).1.parent =
      { mkDyn 1 (Shape.sphere 1) with isTrigger := true }.parent ∧
     (CollisionSystem.resolveCollision { mkDyn 1 (Shape.sphere 1) with isTrigger := true }
        (mkDyn 2 (Shape.sphere 1)) ⟨⟨1, 0, 0⟩, 1, ⟨1, 0, 0⟩⟩).2.parent =
      (mkDyn 2 (Shape.sphere 1)).parent) :=
  ⟨Or.inl rfl, (spec_C4 _ _ _).1 (Or.inl rfl)⟩

/-- C6: the claim that every overlap comparison is strict fails for
box-box: `intersectsBox` uses non-strict comparisons, so AABBs sharing
exactly a face are reported as colliding. -/
theorem spec_C6_counterexample :
    BoxCollider.intersectsBox ⟨0, 0, 0⟩ ⟨1, 1, 1⟩ ⟨1, 0, 0⟩ ⟨1, 1, 1⟩ ∧
    (BoxCollider.maxOf ⟨0, 0, 0⟩ ⟨1, 1, 1⟩).x = (BoxCollider.minOf ⟨1, 0, 0⟩ ⟨1, 1, 1⟩).x := by
  unfold BoxCollider.intersectsBox BoxCollider.minOf BoxCollider.maxOf Vec3.sub Vec3.add Vec3.smul
  norm_num

/-- C6 (amended): the sphere-sphere test is strict, so exactly touching
spheres are not colliding; but the box-box test is non-strict, so boxes
sharing exactly a face (with the other two axis intervals overlapping)
are reported as colliding. -/
theorem spec_C6 :
    (∀ (pa pb : Vec3) (ra rb : ℝ), pa.distanceTo pb = ra + rb →
      ¬ SphereCollider.intersectsSphere pa ra pb rb) ∧
    (∀ c1 s1 c2 s2 : Vec3, 0 ≤ s1.x → 0 ≤ s2.x →
      (BoxCollider.maxOf c1 s1).x = (BoxCollider.minOf c2 s2).x →
      (BoxCollider.minOf c1 s1).y ≤ (BoxCollider.maxOf c2 s2).y →
      (BoxCollider.maxOf c1 s1).y ≥ (BoxCollider.minOf c2 s2).y →
      (BoxCollider.minOf c1 s1).z ≤ (BoxCollider.maxOf c2 s2).z →
      (BoxCollider.maxOf c1 s1).z ≥ (BoxCollider.minOf c2 s2).z →
      BoxCollider.intersectsBox c1 s1 c2 s2) := by
  constructor
  · intro pa pb ra rb h hlt
    unfold SphereCollider.intersectsSphere at hlt
    rw [h] at hlt
    exact lt_irrefl _ hlt
  · intro c1 s1 c2 s2 hx1 hx2 hface hy1 hy2 hz1 hz2
    unfold BoxCollider.intersectsBox
    unfold BoxCollider.minOf BoxCollider.maxOf Vec3.sub Vec3.add Vec3.smul at *
    dsimp at *
    refine ⟨by linarith, by linarith, hy1, hy2, hz1, hz2⟩

theorem spec_C6_witness :
    Vec3.distanceTo ⟨0, 0, 0⟩ ⟨2, 0, 0⟩ = 1 + 1 ∧
    ¬ SphereCollider.intersectsSphere ⟨0, 0, 0⟩ 1 ⟨2, 0, 0⟩ 1 := by
  have h : Vec3.distanceTo ⟨0, 0, 0⟩ ⟨2, 0, 0⟩ = 1 + 1 := by
    unfold Vec3.distanceTo Vec3.length Vec3.lengthSq Vec3.sub
    dsimp
    rw [show (0 - 2 : ℝ) * (0 - 2) + (0 - 0) * (0 - 0) + (0 - 0) * (0 - 0) = 2 ^ 2 by norm_num,
      Real.sqrt_sq (by norm_num)]
    norm_num
  exact ⟨h, spec_C6.1 _ _ _ _ h⟩

/-- C7: the claim that every overlapping embedded/coincident pair gets a
face-distance tie-break and a nonzero unit direction fails for the
box-vs-sphere response: a sphere at the box center yields the zero
direction (THREE normalizes the zero vector to itself). -/
theorem spec_C7_counterexample :
    (BoxCollider.getCollisionResponseForSphere ⟨0, 0, 0⟩ ⟨2, 2, 2⟩ ⟨0, 0, 0⟩ 1).direction =
      Vec3.zero ∧
    BoxCollider.intersectsSphere ⟨0, 0, 0⟩ ⟨2, 2, 2⟩ ⟨0, 0, 0⟩ 1 := by
  have hc : BoxCollider.closestPoint ⟨0, 0, 0⟩ ⟨2, 2, 2⟩ ⟨0, 0, 0⟩ = (⟨0, 0, 0⟩ : Vec3) := by
    unfold BoxCollider.closestPoint clampBetween BoxCollider.minOf BoxCollider.maxOf
      Vec3.sub Vec3.add Vec3.smul
    dsimp
    norm_num
  constructor
  · unfold BoxCollider.getCollisionResponseForSphere
    dsimp
    rw [hc, Vec3.sub_self_eq_zero, Vec3.normalize_zero]
  · unfold BoxCollider.intersectsSphere
    rw [hc, Vec3.distanceTo, Vec3.sub_self_eq_zero]
    have : (Vec3.zero).length = 0 := (Vec3.length_eq_zero_iff _).2 rfl
    rw [this]
    norm_num

theorem min6_cases (a b c d e f : ℝ) :
    min a (min b (min c (min d (min e f)))) = a ∨
    min a (min b (min c (min d (min e f)))) = b ∨
    min a (min b (min c (min d (min e f)))) = c ∨
    min a (min b (min c (min d (min e f)))) = d ∨
    min a (min b (min c (min d (min e f)))) = e ∨
    min a (min b (min c (min d (min e f)))) = f := by
  rcases min_cases a (min b (min c (min d (min e f)))) with ⟨h1, _⟩ | ⟨h1, _⟩
  · exact Or.inl h1
  rcases min_cases b (min c (min d (min e f))) with ⟨h2, _⟩ | ⟨h2, _⟩
  · exact Or.inr (Or.inl (h1.trans h2))
  rcases min_cases c (min d (min e f)) with ⟨h3, _⟩ | ⟨h3, _⟩
  · exact Or.inr (Or.inr (Or.inl ((h1.trans h2).trans h3)))
  rcases min_cases d (min e f) with ⟨h4, _⟩ | ⟨h4, _⟩
  · exact Or.inr (Or.inr (Or.inr (Or.inl (((h1.trans h2).trans h3).trans h4))))
  rcases min_cases e f with ⟨h5, _⟩ | ⟨h5, _⟩
  · exact Or.inr (Or.inr (Or.inr (Or.inr (Or.inl ((((h1.trans h2).trans h3).trans h4).trans h5)))))
  · exact Or.inr (Or.inr (Or.inr (Or.inr (Or.inr ((((h1.trans h2).trans h3).trans h4).trans h5)))))

theorem axisFaceDist_px (pos bc bs : Vec3) :
    axisFaceDist pos bc bs ⟨1, 0, 0⟩ = pos.x - (BoxCollider.minOf bc bs).x := by
  norm_num [axisFaceDist, Vec3.ext_iff]

theorem axisFaceDist_nx (pos bc bs : Vec3) :
    axisFaceDist pos bc bs ⟨-1, 0, 0⟩ = (BoxCollider.maxOf bc bs).x - pos.x := by
  norm_num [axisFaceDist, Vec3.ext_iff]

theorem axisFaceDist_py (pos bc bs : Vec3) :
    axisFaceDist pos bc bs ⟨0, 1, 0⟩ = pos.y - (BoxCollider.minOf bc bs).y := by
  norm_num [axisFaceDist, Vec3.ext_iff]

theorem axisFaceDist_ny (pos bc bs : Vec3) :
    axisFaceDist pos bc bs ⟨0, -1, 0⟩ = (BoxCollider.maxOf bc bs).y - pos.y := by
  norm_num [axisFaceDist, Vec3.ext_iff]

theorem axisFaceDist_pz (pos bc bs : Vec3) :
    axisFaceDist pos bc bs ⟨0, 0, 1⟩ = pos.z - (BoxCollider.minOf bc bs).z := by
  norm_num [axisFaceDist, Vec3.ext_iff]

theorem axisFaceDist_nz (pos bc bs : Vec3) :
    axisFaceDist pos bc bs ⟨0, 0, -1⟩ = (BoxCollider.maxOf bc bs).z - pos.z := by
  norm_num [axisFaceDist, Vec3.ext_iff]

theorem Vec3.isUnitAxis_ne_zero (v : Vec3) (h : v.isUnitAxis) : v ≠ Vec3.zero := by
  rcases h with h | h | h | h | h | h <;> rw [h] <;>
    simp [Vec3.zero, Vec3.ext_iff]

theorem cylResponseForBox_inside (pos : Vec3) (radius height : ℝ) (boxCenter boxSize : Vec3)
    (h : ((BoxCollider.minOf boxCenter boxSize).x < pos.x ∧
          pos.x < (BoxCollider.maxOf boxCenter boxSize).x ∧
          (BoxCollider.minOf boxCenter boxSize).y < pos.y ∧
          pos.y < (BoxCollider.maxOf boxCenter boxSize).y ∧
          (BoxCollider.minOf boxCenter boxSize).z < pos.z ∧
          pos.z < (BoxCollider.maxOf boxCenter boxSize).z) ∨
        (pos.sub (BoxCollider.closestPoint boxCenter boxSize pos)).length < 0.001) :
    ∃ dir : Vec3,
      CylinderCollider.getCollisionResponseForBox pos radius height boxCenter boxSize =
        { direction := dir, overlap := faceDistMin pos boxCenter boxSize + radius,
          normal := dir } ∧
      dir.isUnitAxis ∧
      axisFaceDist pos boxCenter boxSize dir = faceDistMin pos boxCenter boxSize := by
  unfold BoxCollider.closestPoint at h
  unfold CylinderCollider.getCollisionResponseForBox faceDistMin
  rw [if_pos h]
  dsimp only
  split_ifs with e1 e2 e3 e4 e5
  · exact ⟨⟨1, 0, 0⟩, rfl, Or.inl rfl, by rw [axisFaceDist_px]; exact e1.symm⟩
  · exact ⟨⟨-1, 0, 0⟩, rfl, Or.inr (Or.inl rfl), by rw [axisFaceDist_nx]; exact e2.symm⟩
  · exact ⟨⟨0, 1, 0⟩, rfl, Or.inr (Or.inr (Or.inl rfl)),
      by rw [axisFaceDist_py]; exact e3.symm⟩
  · exact ⟨⟨0, -1, 0⟩, rfl, Or.inr (Or.inr (Or.inr (Or.inl rfl))),
      by rw [axisFaceDist_ny]; exact e4.symm⟩
  · exact ⟨⟨0, 0, 1⟩, rfl, Or.inr (Or.inr (Or.inr (Or.inr (Or.inl rfl)))),
      by rw [axisFaceDist_pz]; exact e5.symm⟩
  · refine ⟨⟨0, 0, -1⟩, rfl, Or.inr (Or.inr (Or.inr (Or.inr (Or.inr rfl)))), ?_⟩
    rw [axisFaceDist_nz]
    rcases min6_cases (pos.x - (BoxCollider.minOf boxCenter boxSize).x)
      ((BoxCollider.maxOf boxCenter boxSize).x - pos.x)
      (pos.y - (BoxCollider.minOf boxCenter boxSize).y)
      ((BoxCollider.maxOf boxCenter boxSize).y - pos.y)
      (pos.z - (BoxCollider.minOf boxCenter boxSize).z)
      ((BoxCollider.maxOf boxCenter boxSize).z - pos.z) with
      hm | hm | hm | hm | hm | hm
    · exact absurd hm e1
    · exact absurd hm e2
    · exact absurd hm e3
    · exact absurd hm e4
    · exact absurd hm e5
    · exact hm.symm

/-- C7 (amended): only the cylinder-vs-box response implements the
embedded/coincident tie-break.  For it, in the embedded (strictly inside)
or near-coincident (distance below 0.001) case, the push-out direction is
a unit vector along the single coordinate axis of minimum face distance,
never the zero vector, the overlap is that minimum plus the radius, and
the normal duplicates the direction.  (The sphere and box responses have
no such tie-break: see the counterexample.) -/
theorem spec_C7 (pos : Vec3) (radius height : ℝ) (boxCenter boxSize : Vec3)
    (h : ((BoxCollider.minOf boxCenter boxSize).x < pos.x ∧
          pos.x < (BoxCollider.maxOf boxCenter boxSize).x ∧
          (BoxCollider.minOf boxCenter boxSize).y < pos.y ∧
          pos.y < (BoxCollider.maxOf boxCenter boxSize).y ∧
          (BoxCollider.minOf boxCenter boxSize).z < pos.z ∧
          pos.z < (BoxCollider.maxOf boxCenter boxSize).z) ∨
        (pos.sub (BoxCollider.closestPoint boxCenter boxSize pos)).length < 0.001) :
    (CylinderCollider.getCollisionResponseForBox pos radius height boxCenter boxSize).direction.isUnitAxis ∧
    (CylinderCollider.getCollisionResponseForBox pos radius height boxCenter boxSize).direction ≠
      Vec3.zero ∧
    (CylinderCollider.getCollisionResponseForBox pos radius height boxCenter boxSize).normal =
      (CylinderCollider.getCollisionResponseForBox pos radius height boxCenter boxSize).direction ∧
    axisFaceDist pos boxCenter boxSize
      (CylinderCollider.getCollisionResponseForBox pos radius height boxCenter boxSize).direction =
      faceDistMin pos boxCenter boxSize ∧
    (CylinderCollider.getCollisionResponseForBox pos radius height boxCenter boxSize).overlap =
      faceDistMin pos boxCenter boxSize + radius := by
  obtain ⟨dir, heq, hax, hface⟩ := cylResponseForBox_inside pos radius height boxCenter boxSize h
  rw [heq]
  exact ⟨hax, Vec3.isUnitAxis_ne_zero dir hax, rfl, hface, rfl⟩

theorem spec_C7_witness :
    ((BoxCollider.minOf ⟨0, 0, 0⟩ ⟨4, 2, 4⟩).x < (⟨1, 0, 0⟩ : Vec3).x ∧
     (⟨1, 0, 0⟩ : Vec3).x < (BoxCollider.maxOf ⟨0, 0, 0⟩ ⟨4, 2, 4⟩).x ∧
     (BoxCollider.minOf ⟨0, 0, 0⟩ ⟨4, 2, 4⟩).y < (⟨1, 0, 0⟩ : Vec3).y ∧
     (⟨1, 0, 0⟩ : Vec3).y < (BoxCollider.maxOf ⟨0, 0, 0⟩ ⟨4, 2, 4⟩).y ∧
     (BoxCollider.minOf ⟨0, 0, 0⟩ ⟨4, 2, 4⟩).z < (⟨1, 0, 0⟩ : Vec3).z ∧
     (⟨1, 0, 0⟩ : Vec3).z < (BoxCollider.maxOf ⟨0, 0, 0⟩ ⟨4, 2, 4⟩).z) ∧
    ((CylinderCollider.getCollisionResponseForBox ⟨1, 0, 0⟩ 1 2 ⟨0, 0, 0⟩ ⟨4, 2, 4⟩).direction.isUnitAxis ∧
     (CylinderCollider.getCollisionResponseForBox ⟨1, 0, 0⟩ 1 2 ⟨0, 0, 0⟩ ⟨4, 2, 4⟩).direction ≠
       Vec3.zero ∧
     (CylinderCollider.getCollisionResponseForBox ⟨1, 0, 0⟩ 1 2 ⟨0, 0, 0⟩ ⟨4, 2, 4⟩).normal =
       (CylinderCollider.getCollisionResponseForBox ⟨1, 0, 0⟩ 1 2 ⟨0, 0, 0⟩ ⟨4, 2, 4⟩).direction ∧
     axisFaceDist ⟨1, 0, 0⟩ ⟨0, 0, 0⟩ ⟨4, 2, 4⟩
       (CylinderCollider.getCollisionResponseForBox ⟨1, 0, 0⟩ 1 2 ⟨0, 0, 0⟩ ⟨4, 2, 4⟩).direction =
       faceDistMin ⟨1, 0, 0⟩ ⟨0, 0, 0⟩ ⟨4, 2, 4⟩ ∧
     (CylinderCollider.getCollisionResponseForBox ⟨1, 0, 0⟩ 1 2 ⟨0, 0, 0⟩ ⟨4, 2, 4⟩).overlap =
       faceDistMin ⟨1, 0, 0⟩ ⟨0, 0, 0⟩ ⟨4, 2, 4⟩ + 1) := by
  have hIn : (BoxCollider.minOf ⟨0, 0, 0⟩ ⟨4, 2, 4⟩).x < (⟨1, 0, 0⟩ : Vec3).x ∧
      (⟨1, 0, 0⟩ : Vec3).x < (BoxCollider.maxOf ⟨0, 0, 0⟩ ⟨4, 2, 4⟩).x ∧
      (BoxCollider.minOf ⟨0, 0, 0⟩ ⟨4, 2, 4⟩).y < (⟨1, 0, 0⟩ : Vec3).y ∧
      (⟨1, 0, 0⟩ : Vec3).y < (BoxCollider.maxOf ⟨0, 0, 0⟩ ⟨4, 2, 4⟩).y ∧
      (BoxCollider.minOf ⟨0, 0, 0⟩ ⟨4, 2, 4⟩).z < (⟨1, 0, 0⟩ : Vec3).z ∧
      (⟨1, 0, 0⟩ : Vec3).z < (BoxCollider.maxOf ⟨0, 0, 0⟩ ⟨4, 2, 4⟩).z := by
    norm_num [BoxCollider.minOf, BoxCollider.maxOf, Vec3.sub, Vec3.add, Vec3.smul]
  exact ⟨hIn, spec_C7 ⟨1, 0, 0⟩ 1 2 ⟨0, 0, 0⟩ ⟨4, 2, 4⟩ (Or.inl hIn)⟩

@[simp] theorem Collider.uwp_id (c : Collider) : c.updateWorldPosition.id = c.id := by
  unfold Collider.updateWorldPosition
  cases c.parent <;> rfl

@[simp] theorem Collider.uwp_shape (c : Collider) : c.updateWorldPosition.shape = c.shape := by
  unfold Collider.updateWorldPosition
  cases c.parent <;> rfl

@[simp] theorem Collider.uwp_layer (c : Collider) : c.updateWorldPosition.layer = c.layer := by
  unfold Collider.updateWorldPosition
  cases c.parent <;> rfl

@[simp] theorem Collider.uwp_mask (c : Collider) :
    c.updateWorldPosition.collidesWithMask = c.collidesWithMask := by
  unfold Collider.updateWorldPosition
  cases c.parent <;> rfl

@[simp] theorem Collider.uwp_isTrigger (c : Collider) :
    c.updateWorldPosition.isTrigger = c.isTrigger := by
  unfold Collider.updateWorldPosition
  cases c.parent <;> rfl

@[simp] theorem Collider.uwp_isStatic (c : Collider) :
    c.updateWorldPosition.isStatic = c.isStatic := by
  unfold Collider.updateWorldPosition
  cases c.parent <;> rfl

@[simp] theorem Collider.uwp_enabled (c : Collider) :
    c.updateWorldPosition.enabled = c.enabled := by
  unfold Collider.updateWorldPosition
  cases c.parent <;> rfl

@[simp] theorem Collider.uwp_parent (c : Collider) :
    c.updateWorldPosition.parent = c.parent := by
  cases h : c.parent <;> simp [Collider.updateWorldPosition, h]

@[simp] theorem Collider.uwp_offset (c : Collider) :
    c.updateWorldPosition.offset = c.offset := by
  unfold Collider.updateWorldPosition
  cases c.parent <;> rfl

@[simp] theorem Collider.uwp_onEnter (c : Collider) :
    c.updateWorldPosition.onCollisionEnter = c.onCollisionEnter := by
  unfold Collider.updateWorldPosition
  cases c.parent <;> rfl

@[simp] theorem Collider.uwp_onStay (c : Collider) :
    c.updateWorldPosition.onCollisionStay = c.onCollisionStay := by
  unfold Collider.updateWorldPosition
  cases c.parent <;> rfl

@[simp] theorem Collider.uwp_onExit (c : Collider) :
    c.updateWorldPosition.onCollisionExit = c.onCollisionExit := by
  unfold Collider.updateWorldPosition
  cases c.parent <;> rfl

@[simp] theorem Collider.uwp_active (c : Collider) :
    c.updateWorldPosition.activeCollisions = c.activeCollisions := by
  unfold Collider.updateWorldPosition
  cases c.parent <;> rfl

theorem Collider.uwp_wp_of_parent (c : Collider) (p : Vec3) (h : c.parent = some p) :
    c.updateWorldPosition.worldPosition = p.add c.offset := by
  unfold Collider.updateWorldPosition
  rw [h]

theorem Collider.uwp_wp_of_none (c : Collider) (h : c.parent = none) :
    c.updateWorldPosition.worldPosition = c.worldPosition := by
  unfold Collider.updateWorldPosition
  rw [h]

theorem Collider.uwp_idem (c : Collider) :
    c.updateWorldPosition.updateWorldPosition = c.updateWorldPosition := by
  cases h : c.parent <;> simp [Collider.updateWorldPosition, h]

/-- C2 (amended): cylinders are tagged `"sphere"` (there is no
`ColliderType.CYLINDER`), so the system's pair test dispatches a
cylinder-sphere pair to `CylinderCollider.intersectsSphere` only when the
cylinder is the first argument; with the sphere first it runs the plain
sphere-sphere center-distance test against the cylinder's radius, and a
cylinder-box pair runs the box's closest-point-vs-sphere test with the
cylinder's radius — never `CylinderCollider.intersectsBox`. -/
theorem spec_C2 :
    (∀ (a b : Collider) (rc hc rs : ℝ), a.shape = Shape.cylinder rc hc →
      b.shape = Shape.sphere rs →
      (CollisionSystem.checkCollision a b ↔ a.canCollideWith b = true ∧
        CylinderCollider.intersectsSphere a.updateWorldPosition.worldPosition rc hc
          b.updateWorldPosition.worldPosition rs)) ∧
    (∀ (a b : Collider) (ra rc hc : ℝ), a.shape = Shape.sphere ra →
      b.shape = Shape.cylinder rc hc →
      (CollisionSystem.checkCollision a b ↔ a.canCollideWith b = true ∧
        SphereCollider.intersectsSphere a.updateWorldPosition.worldPosition ra
          b.updateWorldPosition.worldPosition rc)) ∧
    (∀ (a b : Collider) (rc hc : ℝ) (sb : Vec3), a.shape = Shape.cylinder rc hc →
      b.shape = Shape.box sb →
      (CollisionSystem.checkCollision a b ↔ a.canCollideWith b = true ∧
        BoxCollider.intersectsSphere b.updateWorldPosition.worldPosition sb
          a.updateWorldPosition.worldPosition rc)) := by
  refine ⟨?_, ?_, ?_⟩
  · intro a b rc hc rs ha hb
    unfold CollisionSystem.checkCollision CollisionSystem.narrowTest
    simp [Collider.typeTag, ha, hb, Shape.typeTag, Collider.intersectsSphereDyn,
      Collider.radius, Shape.radius]
  · intro a b ra rc hc ha hb
    unfold CollisionSystem.checkCollision CollisionSystem.narrowTest
    simp [Collider.typeTag, ha, hb, Shape.typeTag, Collider.intersectsSphereDyn,
      Collider.radius, Shape.radius]
  · intro a b rc hc sb ha hb
    unfold CollisionSystem.checkCollision CollisionSystem.narrowTest
    simp [Collider.typeTag, ha, hb, Shape.typeTag, Collider.intersectsSphereDyn,
      Collider.radius, Shape.radius]

/-- C2: the claimed cylinder-box dispatch is false.  A unit box whose AABB
touches the top of a cylinder from above satisfies the cylinder's own
AABB-pre-test + 2D circle-vs-rectangle test, yet `checkCollision` reports
no collision, because the pair is dispatched to the box's
closest-point-vs-sphere test with the cylinder's radius instead. -/
theorem spec_C2_counterexample :
    ¬ CollisionSystem.checkCollision cexCyl cexBox ∧
    CylinderCollider.intersectsBox ⟨0, 0, 0⟩ 1 4 ⟨0, 2.5, 0⟩ ⟨1, 1, 1⟩ := by
  constructor
  · have hstep : CollisionSystem.narrowTest cexCyl.updateWorldPosition
        cexBox.updateWorldPosition ↔
        BoxCollider.intersectsSphere ⟨0, 2.5, 0⟩ ⟨1, 1, 1⟩ ⟨0, 0, 0⟩ 1 := by
      simp [CollisionSystem.narrowTest, cexCyl, cexBox, mkAt, mkDyn, Collider.typeTag,
        Shape.typeTag, Collider.intersectsSphereDyn, Collider.radius, Shape.radius,
        Collider.updateWorldPosition]
    have hc : BoxCollider.closestPoint ⟨0, 2.5, 0⟩ ⟨1, 1, 1⟩ ⟨0, 0, 0⟩ = (⟨0, 2, 0⟩ : Vec3) := by
      unfold BoxCollider.closestPoint clampBetween BoxCollider.minOf BoxCollider.maxOf
        Vec3.sub Vec3.add Vec3.smul
      dsimp only
      norm_num [Vec3.mk.injEq, min_def, max_def]
    have hbox : ¬ BoxCollider.intersectsSphere ⟨0, 2.5, 0⟩ ⟨1, 1, 1⟩ ⟨0, 0, 0⟩ 1 := by
      unfold BoxCollider.intersectsSphere
      rw [hc]
      unfold Vec3.distanceTo Vec3.length Vec3.lengthSq Vec3.sub
      dsimp only
      rw [show ((0 : ℝ) - 0) * (0 - 0) + (2 - 0) * (2 - 0) + (0 - 0) * (0 - 0) = 2 ^ 2 by
        norm_num]
      rw [Real.sqrt_sq (by norm_num : (0 : ℝ) ≤ 2)]
      norm_num
    rintro ⟨-, hnar⟩
    exact hbox (hstep.1 hnar)
  · unfold CylinderCollider.intersectsBox CylinderCollider.minOf CylinderCollider.maxOf
      BoxCollider.minOf BoxCollider.maxOf Vec3.sub Vec3.add Vec3.smul clampBetween
    dsimp only
    rw [if_neg (by norm_num)]
    norm_num [min_def, max_def]

theorem spec_C2_witness :
    cexCyl.shape = Shape.cylinder 1 4 ∧ cexBox.shape = Shape.box ⟨1, 1, 1⟩ ∧
    (CollisionSystem.checkCollision cexCyl cexBox ↔ cexCyl.canCollideWith cexBox = true ∧
      BoxCollider.intersectsSphere cexBox.updateWorldPosition.worldPosition ⟨1, 1, 1⟩
        cexCyl.updateWorldPosition.worldPosition 1) :=
  ⟨rfl, rfl, spec_C2.2.2 cexCyl cexBox 1 4 ⟨1, 1, 1⟩ rfl rfl⟩

/-- C8 (amended): for the sphere-sphere, sphere-box and box-sphere
orderings, the response delivered for side A has a unit direction, a
non-negative overlap, and a normal equal to the direction, provided the
two defining points are distinct; the direction is the normalized vector
from the other shape's defining point toward A's center for the
(sphere, sphere) and (sphere, box) orderings, but for the (box, sphere)
ordering it points from the box's closest point toward the sphere — i.e.
from A toward B, not from B toward A as claimed. -/
theorem spec_C8 :
    (∀ (a b : Collider) (ra rb : ℝ), a.shape = Shape.sphere ra → b.shape = Shape.sphere rb →
      a.updateWorldPosition.worldPosition ≠ b.updateWorldPosition.worldPosition →
      (CollisionSystem.getCollisionResponse a b).direction =
        (a.updateWorldPosition.worldPosition.sub b.updateWorldPosition.worldPosition).normalize ∧
      (CollisionSystem.getCollisionResponse a b).direction.lengthSq = 1 ∧
      0 ≤ (CollisionSystem.getCollisionResponse a b).overlap ∧
      (CollisionSystem.getCollisionResponse a b).normal =
        (CollisionSystem.getCollisionResponse a b).direction ∧
      (∃ s : ℝ, 0 < s ∧ (CollisionSystem.getCollisionResponse a b).direction =
        Vec3.smul s (a.updateWorldPosition.worldPosition.sub b.updateWorldPosition.worldPosition))) ∧
    (∀ (a b : Collider) (ra : ℝ) (sb : Vec3), a.shape = Shape.sphere ra → b.shape = Shape.box sb →
      a.updateWorldPosition.worldPosition ≠
        BoxCollider.closestPoint b.updateWorldPosition.worldPosition sb
          a.updateWorldPosition.worldPosition →
      (CollisionSystem.getCollisionResponse a b).direction =
        (a.updateWorldPosition.worldPosition.sub
          (BoxCollider.closestPoint b.updateWorldPosition.worldPosition sb
            a.updateWorldPosition.worldPosition)).normalize ∧
      (CollisionSystem.getCollisionResponse a b).direction.lengthSq = 1 ∧
      0 ≤ (CollisionSystem.getCollisionResponse a b).overlap ∧
      (CollisionSystem.getCollisionResponse a b).normal =
        (CollisionSystem.getCollisionResponse a b).direction ∧
      (∃ s : ℝ, 0 < s ∧ (CollisionSystem.getCollisionResponse a b).direction =
        Vec3.smul s (a.updateWorldPosition.worldPosition.sub
          (BoxCollider.closestPoint b.updateWorldPosition.worldPosition sb
            a.updateWorldPosition.worldPosition)))) ∧
    (∀ (a b : Collider) (sa : Vec3) (rb : ℝ), a.shape = Shape.box sa → b.shape = Shape.sphere rb →
      b.updateWorldPosition.worldPosition ≠
        BoxCollider.closestPoint a.updateWorldPosition.worldPosition sa
          b.updateWorldPosition.worldPosition →
      (CollisionSystem.getCollisionResponse a b).direction =
        (b.updateWorldPosition.worldPosition.sub
          (BoxCollider.closestPoint a.updateWorldPosition.worldPosition sa
            b.updateWorldPosition.worldPosition)).normalize ∧
      (CollisionSystem.getCollisionResponse a b).direction.lengthSq = 1 ∧
      0 ≤ (CollisionSystem.getCollisionResponse a b).overlap ∧
      (CollisionSystem.getCollisionResponse a b).normal =
        (CollisionSystem.getCollisionResponse a b).direction ∧
      (∃ s : ℝ, 0 < s ∧ (CollisionSystem.getCollisionResponse a b).direction =
        Vec3.smul s (b.updateWorldPosition.worldPosition.sub
          (BoxCollider.closestPoint a.updateWorldPosition.worldPosition sa
            b.updateWorldPosition.worldPosition)))) := by
  refine ⟨?_, ?_, ?_⟩
  · intro a b ra rb ha hb hne
    have hd : CollisionSystem.getCollisionResponse a b =
        SphereCollider.getCollisionResponse a.updateWorldPosition.worldPosition ra
          b.updateWorldPosition.worldPosition rb := by
      unfold CollisionSystem.getCollisionResponse CollisionSystem.sphereTagResponseDyn
      simp [Collider.typeTag, ha, hb, Shape.typeTag, Collider.radius, Shape.radius]
    have hsub : a.updateWorldPosition.worldPosition.sub b.updateWorldPosition.worldPosition ≠
        Vec3.zero := fun h0 => hne ((Vec3.sub_eq_zero_iff _ _).1 h0)
    rw [hd]
    unfold SphereCollider.getCollisionResponse
    dsimp only
    exact ⟨rfl, Vec3.normalize_lengthSq _ hsub, le_max_left 0 _, rfl,
      Vec3.normalize_pos_smul _ hsub⟩
  · intro a b ra sb ha hb hne
    have hd : CollisionSystem.getCollisionResponse a b =
        BoxCollider.getCollisionResponseForSphere b.updateWorldPosition.worldPosition sb
          a.updateWorldPosition.worldPosition ra := by
      unfold CollisionSystem.getCollisionResponse
      simp [Collider.typeTag, ha, hb, Shape.typeTag, Collider.radius, Shape.radius]
    have hsub : a.updateWorldPosition.worldPosition.sub
        (BoxCollider.closestPoint b.updateWorldPosition.worldPosition sb
          a.updateWorldPosition.worldPosition) ≠ Vec3.zero :=
      fun h0 => hne ((Vec3.sub_eq_zero_iff _ _).1 h0)
    rw [hd]
    unfold BoxCollider.getCollisionResponseForSphere
    dsimp only
    exact ⟨rfl, Vec3.normalize_lengthSq _ hsub, le_max_left 0 _, rfl,
      Vec3.normalize_pos_smul _ hsub⟩
  · intro a b sa rb ha hb hne
    have hd : CollisionSystem.getCollisionResponse a b =
        BoxCollider.getCollisionResponseForSphere a.updateWorldPosition.worldPosition sa
          b.updateWorldPosition.worldPosition rb := by
      unfold CollisionSystem.getCollisionResponse
      simp [Collider.typeTag, ha, hb, Shape.typeTag, Collider.radius, Shape.radius]
    have hsub : b.updateWorldPosition.worldPosition.sub
        (BoxCollider.closestPoint a.updateWorldPosition.worldPosition sa
          b.updateWorldPosition.worldPosition) ≠ Vec3.zero :=
      fun h0 => hne ((Vec3.sub_eq_zero_iff _ _).1 h0)
    rw [hd]
    unfold BoxCollider.getCollisionResponseForSphere
    dsimp only
    exact ⟨rfl, Vec3.normalize_lengthSq _ hsub, le_max_left 0 _, rfl,
      Vec3.normalize_pos_smul _ hsub⟩

/-- C8: the claim that the delivered direction points from the other shape
toward the receiving side fails for the (box, sphere) ordering.  With the
spec's own scenario (box half-extents 1 at the origin, sphere radius 0.5
at (0,0,1.3)) the response delivered for the box points toward the
sphere: `(0,0,1)`, whereas a unit vector from the sphere toward the box
is `(0,0,-1)`. -/
theorem spec_C8_counterexample :
    (CollisionSystem.getCollisionResponse c8Box c8Sph).direction = ⟨0, 0, 1⟩ ∧
    (c8Box.worldPosition.sub c8Sph.worldPosition).normalize = ⟨0, 0, -1⟩ ∧
    (CollisionSystem.getCollisionResponse c8Box c8Sph).direction ≠
      (c8Box.worldPosition.sub c8Sph.worldPosition).normalize := by
  have h1 : CollisionSystem.getCollisionResponse c8Box c8Sph =
      BoxCollider.getCollisionResponseForSphere ⟨0, 0, 0⟩ ⟨2, 2, 2⟩ ⟨0, 0, 1.3⟩ 0.5 := by
    unfold CollisionSystem.getCollisionResponse
    simp [c8Box, c8Sph, mkAt, mkDyn, Collider.typeTag, Shape.typeTag, Collider.radius,
      Shape.radius, Collider.updateWorldPosition]
  have hclosest : BoxCollider.closestPoint ⟨0, 0, 0⟩ ⟨2, 2, 2⟩ ⟨0, 0, 1.3⟩ =
      (⟨0, 0, 1⟩ : Vec3) := by
    unfold BoxCollider.closestPoint clampBetween BoxCollider.minOf BoxCollider.maxOf
      Vec3.sub Vec3.add Vec3.smul
    dsimp only
    norm_num [Vec3.mk.injEq, min_def, max_def]
  have hdir : ((⟨0, 0, 1.3⟩ : Vec3).sub ⟨0, 0, 1⟩).normalize = ⟨0, 0, 1⟩ := by
    have hsub : (⟨0, 0, 1.3⟩ : Vec3).sub ⟨0, 0, 1⟩ = ⟨0, 0, 0.3⟩ := by
      unfold Vec3.sub
      norm_num
    rw [hsub]
    have hL : (⟨0, 0, 0.3⟩ : Vec3).length = 0.3 := by
      unfold Vec3.length Vec3.lengthSq
      dsimp only
      rw [show (0 : ℝ) * 0 + 0 * 0 + 0.3 * 0.3 = 0.3 ^ 2 by norm_num,
        Real.sqrt_sq (by norm_num : (0 : ℝ) ≤ 0.3)]
    unfold Vec3.normalize
    rw [hL, if_neg (by norm_num)]
    unfold Vec3.smul
    dsimp only
    norm_num [Vec3.mk.injEq]
  have hneg : ((⟨0, 0, 0⟩ : Vec3).sub ⟨0, 0, 1.3⟩).normalize = ⟨0, 0, -1⟩ := by
    have hsub : (⟨0, 0, 0⟩ : Vec3).sub ⟨0, 0, 1.3⟩ = ⟨0, 0, -1.3⟩ := by
      unfold Vec3.sub
      norm_num
    rw [hsub]
    have hL : (⟨0, 0, -1.3⟩ : Vec3).length = 1.3 := by
      unfold Vec3.length Vec3.lengthSq
      dsimp only
      rw [show (0 : ℝ) * 0 + 0 * 0 + -1.3 * -1.3 = 1.3 ^ 2 by norm_num,
        Real.sqrt_sq (by norm_num : (0 : ℝ) ≤ 1.3)]
    unfold Vec3.normalize
    rw [hL, if_neg (by norm_num)]
    unfold Vec3.smul
    dsimp only
    norm_num [Vec3.mk.injEq]
  have hwp1 : c8Box.worldPosition = (⟨0, 0, 0⟩ : Vec3) := rfl
  have hwp2 : c8Sph.worldPosition = (⟨0, 0, 1.3⟩ : Vec3) := rfl
  have hmain : (CollisionSystem.getCollisionResponse c8Box c8Sph).direction =
      (⟨0, 0, 1⟩ : Vec3) := by
    rw [h1]
    unfold BoxCollider.getCollisionResponseForSphere
    dsimp only
    rw [hclosest, hdir]
  refine ⟨hmain, by rw [hwp1, hwp2, hneg], ?_⟩
  rw [hmain, hwp1, hwp2, hneg]
  simp [Vec3.ext_iff]
  norm_num

theorem spec_C8_witness :
    (mkAt 1 (Shape.sphere 1) ⟨0, 0, 0⟩).shape = Shape.sphere 1 ∧
    (mkAt 2 (Shape.sphere 1) ⟨5, 0, 0⟩).shape = Shape.sphere 1 ∧
    (mkAt 1 (Shape.sphere 1) ⟨0, 0, 0⟩).updateWorldPosition.worldPosition ≠
      (mkAt 2 (Shape.sphere 1) ⟨5, 0, 0⟩).updateWorldPosition.worldPosition ∧
    ((CollisionSystem.getCollisionResponse (mkAt 1 (Shape.sphere 1) ⟨0, 0, 0⟩)
        (mkAt 2 (Shape.sphere 1) ⟨5, 0, 0⟩)).direction.lengthSq = 1 ∧
     0 ≤ (CollisionSystem.getCollisionResponse (mkAt 1 (Shape.sphere 1) ⟨0, 0, 0⟩)
        (mkAt 2 (Shape.sphere 1) ⟨5, 0, 0⟩)).overlap ∧
     (CollisionSystem.getCollisionResponse (mkAt 1 (Shape.sphere 1) ⟨0, 0, 0⟩)
        (mkAt 2 (Shape.sphere 1) ⟨5, 0, 0⟩)).normal =
       (CollisionSystem.getCollisionResponse (mkAt 1 (Shape.sphere 1) ⟨0, 0, 0⟩)
        (mkAt 2 (Shape.sphere 1) ⟨5, 0, 0⟩)).direction) := by
  have hne : (mkAt 1 (Shape.sphere 1) ⟨0, 0, 0⟩).updateWorldPosition.worldPosition ≠
      (mkAt 2 (Shape.sphere 1) ⟨5, 0, 0⟩).updateWorldPosition.worldPosition := by
    simp [mkAt, mkDyn, Collider.updateWorldPosition, Vec3.ext_iff]
  have h := spec_C8.1 (mkAt 1 (Shape.sphere 1) ⟨0, 0, 0⟩) (mkAt 2 (Shape.sphere 1) ⟨5, 0, 0⟩)
    1 1 rfl rfl hne
  exact ⟨rfl, rfl, hne, h.2.1, h.2.2.1, h.2.2.2.1⟩

theorem staticEq_refl (c : Collider) : staticEq c c := rfl

theorem staticEq_chain {a b c : Collider} (h1 : staticEq a b) (h2 : staticEq b c) :
    staticEq a c := h2.trans h1

theorem staticEq_fields {A A' : Collider} (h : staticEq A A') :
    A'.id = A.id ∧ A'.shape = A.shape ∧ A'.layer = A.layer ∧
    A'.collidesWithMask = A.collidesWithMask ∧ A'.isTrigger = A.isTrigger ∧
    A'.isStatic = A.isStatic ∧ A'.enabled = A.enabled ∧ A'.offset = A.offset ∧
    A'.onCollisionEnter = A.onCollisionEnter ∧ A'.onCollisionStay = A.onCollisionStay ∧
    A'.onCollisionExit = A.onCollisionExit := by
  unfold staticEq Collider.core at h
  simp only [Prod.mk.injEq] at h
  exact ⟨h.1, h.2.1, h.2.2.1, h.2.2.2.1, h.2.2.2.2.1, h.2.2.2.2.2.1, h.2.2.2.2.2.2.1,
    h.2.2.2.2.2.2.2.1, h.2.2.2.2.2.2.2.2.1, h.2.2.2.2.2.2.2.2.2.1, h.2.2.2.2.2.2.2.2.2.2⟩

theorem core_set_parent (c : Collider) (p : Option Vec3) :
    ({ c with parent := p } : Collider).core = c.core := rfl

theorem core_set_active (c : Collider) (l : List ℕ) :
    ({ c with activeCollisions := l } : Collider).core = c.core := rfl

theorem core_uwp (c : Collider) : c.updateWorldPosition.core = c.core := by
  cases h : c.parent <;> simp [Collider.updateWorldPosition, h, Collider.core]

theorem core_addActive (c : Collider) (x : ℕ) :
    (CollisionSystem.addActive c x).core = c.core := by
  unfold CollisionSystem.addActive
  split_ifs <;> rfl

theorem addActive_id (c : Collider) (x : ℕ) : (CollisionSystem.addActive c x).id = c.id := by
  unfold CollisionSystem.addActive
  split_ifs <;> rfl

theorem addActive_active_not_mem (c : Collider) (x : ℕ) (h : x ∉ c.activeCollisions) :
    (CollisionSystem.addActive c x).activeCollisions = c.activeCollisions ++ [x] := by
  unfold CollisionSystem.addActive
  rw [if_neg h]

theorem resolveCollision_parents (a b : Collider) (r : Response) :
    ∃ p q, CollisionSystem.resolveCollision a b r =
      ({ a with parent := p }, { b with parent := q }) := by
  unfold CollisionSystem.resolveCollision
  split_ifs <;> exact ⟨_, _, rfl⟩

theorem canCollideWith_congr {A B A' B' : Collider} (hA : staticEq A A') (hB : staticEq B B') :
    A'.canCollideWith B' = A.canCollideWith B := by
  obtain ⟨hid, -, hlay, hmask, -, -, hen, -⟩ := staticEq_fields hA
  obtain ⟨hid', -, hlay', hmask', -, -, hen', -⟩ := staticEq_fields hB
  unfold Collider.canCollideWith
  rw [hid, hid', hlay, hlay', hmask, hmask', hen, hen']

theorem narrowTest_congr {a b a' b' : Collider} (h1 : a'.shape = a.shape)
    (h2 : a'.worldPosition = a.worldPosition) (h3 : b'.shape = b.shape)
    (h4 : b'.worldPosition = b.worldPosition) :
    CollisionSystem.narrowTest a' b' ↔ CollisionSystem.narrowTest a b := by
  unfold CollisionSystem.narrowTest Collider.intersectsSphereDyn Collider.intersectsCapsuleDyn
    Collider.intersectsBoxDyn Collider.typeTag Collider.radius
  rw [h1, h2, h3, h4]

theorem canCollideWith_uwp (u v : Collider) :
    u.updateWorldPosition.canCollideWith v.updateWorldPosition = u.canCollideWith v := by
  unfold Collider.canCollideWith
  simp

theorem pairLoop_two (s : CollisionSystem.SweepState) :
    CollisionSystem.pairLoop s 2 = CollisionSystem.pairStep s 0 1 := rfl

theorem update_two (x y : Collider) :
    CollisionSystem.update [x, y] =
      ((CollisionSystem.exitLoop
          ((CollisionSystem.pairStep ⟨[x.updateWorldPosition, y.updateWorldPosition], [], []⟩ 0 1).arr.map Collider.id)
          (CollisionSystem.pairStep ⟨[x.updateWorldPosition, y.updateWorldPosition], [], []⟩ 0 1).current
          (CollisionSystem.pairStep ⟨[x.updateWorldPosition, y.updateWorldPosition], [], []⟩ 0 1).arr).1,
       (CollisionSystem.pairStep ⟨[x.updateWorldPosition, y.updateWorldPosition], [], []⟩ 0 1).events ++
       (CollisionSystem.exitLoop
          ((CollisionSystem.pairStep ⟨[x.updateWorldPosition, y.updateWorldPosition], [], []⟩ 0 1).arr.map Collider.id)
          (CollisionSystem.pairStep ⟨[x.updateWorldPosition, y.updateWorldPosition], [], []⟩ 0 1).current
          (CollisionSystem.pairStep ⟨[x.updateWorldPosition, y.updateWorldPosition], [], []⟩ 0 1).arr).2) := rfl

theorem pairStep_no_can (u v : Collider) (cur : List (ℕ × ℕ)) (ev : List Event)
    (h : u.canCollideWith v = false) :
    CollisionSystem.pairStep ⟨[u, v], cur, ev⟩ 0 1 = ⟨[u, v], cur, ev⟩ := by
  unfold CollisionSystem.pairStep
  simp [h]

theorem pairStep_no_narrow (u v : Collider) (cur : List (ℕ × ℕ)) (ev : List Event)
    (hcan : u.canCollideWith v = true)
    (hnar : ¬ CollisionSystem.narrowTest u.updateWorldPosition v.updateWorldPosition) :
    CollisionSystem.pairStep ⟨[u, v], cur, ev⟩ 0 1 =
      ⟨[u.updateWorldPosition, v.updateWorldPosition], cur, ev⟩ := by
  unfold CollisionSystem.pairStep
  simp only [List.getD_cons_zero, List.getD_cons_succ]
  rw [if_pos hcan, if_neg hnar]
  rfl

theorem pairStep_enter (u v : Collider) (cur : List (ℕ × ℕ)) (ev : List Event)
    (hcan : u.canCollideWith v = true)
    (hnar : CollisionSystem.narrowTest u.updateWorldPosition v.updateWorldPosition)
    (hwas : v.id ∉ u.activeCollisions) :
    CollisionSystem.pairStep ⟨[u, v], cur, ev⟩ 0 1 =
      ⟨[(CollisionSystem.resolveCollision
            (CollisionSystem.addActive u.updateWorldPosition v.id)
            (CollisionSystem.addActive v.updateWorldPosition u.id)
            (CollisionSystem.getCollisionResponse u.updateWorldPosition v.updateWorldPosition)).1,
         (CollisionSystem.resolveCollision
            (CollisionSystem.addActive u.updateWorldPosition v.id)
            (CollisionSystem.addActive v.updateWorldPosition u.id)
            (CollisionSystem.getCollisionResponse u.updateWorldPosition v.updateWorldPosition)).2],
       (if CollisionSystem.pairKey u.id v.id ∈ cur then cur
        else cur ++ [CollisionSystem.pairKey u.id v.id]),
       ev ++ ((if u.onCollisionEnter then [⟨u.id, EventKind.enter, v.id⟩] else []) ++
              (if v.onCollisionEnter then [⟨v.id, EventKind.enter, u.id⟩] else []))⟩ := by
  unfold CollisionSystem.pairStep
  simp only [List.getD_cons_zero, List.getD_cons_succ]
  rw [if_pos hcan, if_pos hnar]
  simp [hwas]

theorem pairStep_stay (u v : Collider) (cur : List (ℕ × ℕ)) (ev : List Event)
    (hcan : u.canCollideWith v = true)
    (hnar : CollisionSystem.narrowTest u.updateWorldPosition v.updateWorldPosition)
    (hwas : v.id ∈ u.activeCollisions) :
    CollisionSystem.pairStep ⟨[u, v], cur, ev⟩ 0 1 =
      ⟨[(CollisionSystem.resolveCollision u.updateWorldPosition v.updateWorldPosition
            (CollisionSystem.getCollisionResponse u.updateWorldPosition v.updateWorldPosition)).1,
         (CollisionSystem.resolveCollision u.updateWorldPosition v.updateWorldPosition
            (CollisionSystem.getCollisionResponse u.updateWorldPosition v.updateWorldPosition)).2],
       (if CollisionSystem.pairKey u.id v.id ∈ cur then cur
        else cur ++ [CollisionSystem.pairKey u.id v.id]),
       ev ++ ((if u.onCollisionStay then [⟨u.id, EventKind.stay, v.id⟩] else []) ++
              (if v.onCollisionStay then [⟨v.id, EventKind.stay, u.id⟩] else []))⟩ := by
  unfold CollisionSystem.pairStep
  simp only [List.getD_cons_zero, List.getD_cons_succ]
  rw [if_pos hcan, if_pos hnar]
  simp [hwas]

theorem exitLoop_two (ids : List ℕ) (cur : List (ℕ × ℕ)) (c d : Collider) :
    CollisionSystem.exitLoop ids cur [c, d] =
      ([(CollisionSystem.exitPassOne ids cur c).1, (CollisionSystem.exitPassOne ids cur d).1],
       (CollisionSystem.exitPassOne ids cur c).2 ++ (CollisionSystem.exitPassOne ids cur d).2) := by
  unfold CollisionSystem.exitLoop
  simp

theorem exitLoop_one (ids : List ℕ) (cur : List (ℕ × ℕ)) (c : Collider) :
    CollisionSystem.exitLoop ids cur [c] =
      ([(CollisionSystem.exitPassOne ids cur c).1], (CollisionSystem.exitPassOne ids cur c).2) := by
  unfold CollisionSystem.exitLoop
  simp

theorem exitPassOne_nil (ids : List ℕ) (cur : List (ℕ × ℕ)) (c : Collider)
    (h : c.activeCollisions = []) :
    CollisionSystem.exitPassOne ids cur c = (c, []) := by
  unfold CollisionSystem.exitPassOne
  rw [h]
  simp only [List.filterMap_nil, List.filter_nil]
  rw [show ({ c with activeCollisions := ([] : List ℕ) } : Collider) = c from by rw [← h]]

theorem exitPassOne_keep (ids : List ℕ) (cur : List (ℕ × ℕ)) (c : Collider) (pid : ℕ)
    (hact : c.activeCollisions = [pid]) (hin : pid ∈ ids)
    (hkey : CollisionSystem.pairKey c.id pid ∈ cur) :
    CollisionSystem.exitPassOne ids cur c = (c, []) := by
  unfold CollisionSystem.exitPassOne
  rw [hact]
  have h1 : List.filterMap (fun otherId =>
      if otherId ∈ ids ∧ CollisionSystem.pairKey c.id otherId ∉ cur ∧ c.onCollisionExit = true
      then some (⟨c.id, EventKind.exit, otherId⟩ : Event) else none) [pid] = [] := by
    rw [List.filterMap_cons, if_neg (fun hcon => hcon.2.1 hkey)]
    rfl
  have h2 : List.filter (fun otherId =>
      decide (otherId ∈ ids ∧ CollisionSystem.pairKey c.id otherId ∈ cur)) [pid] = [pid] := by
    rw [List.filter_cons, if_pos (by simp [hin, hkey])]
    rfl
  rw [h1, h2, ← hact]

theorem exitPassOne_fire (ids : List ℕ) (cur : List (ℕ × ℕ)) (c : Collider) (pid : ℕ)
    (hact : c.activeCollisions = [pid]) (hin : pid ∈ ids)
    (hkey : CollisionSystem.pairKey c.id pid ∉ cur) (hflag : c.onCollisionExit = true) :
    CollisionSystem.exitPassOne ids cur c =
      ({ c with activeCollisions := [] }, [⟨c.id, EventKind.exit, pid⟩]) := by
  unfold CollisionSystem.exitPassOne
  rw [hact]
  have h1 : List.filterMap (fun otherId =>
      if otherId ∈ ids ∧ CollisionSystem.pairKey c.id otherId ∉ cur ∧ c.onCollisionExit = true
      then some (⟨c.id, EventKind.exit, otherId⟩ : Event) else none) [pid] =
      [⟨c.id, EventKind.exit, pid⟩] := by
    rw [List.filterMap_cons, if_pos ⟨hin, hkey, hflag⟩]
    rfl
  have h2 : List.filter (fun otherId =>
      decide (otherId ∈ ids ∧ CollisionSystem.pairKey c.id otherId ∈ cur)) [pid] = [] := by
    rw [List.filter_cons, if_neg (by simp [hkey])]
    rfl
  rw [h1, h2]

theorem exitPassOne_gone (ids : List ℕ) (cur : List (ℕ × ℕ)) (c : Collider) (pid : ℕ)
    (hact : c.activeCollisions = [pid]) (hnotin : pid ∉ ids) :
    CollisionSystem.exitPassOne ids cur c = ({ c with activeCollisions := [] }, []) := by
  unfold CollisionSystem.exitPassOne
  rw [hact]
  have h1 : List.filterMap (fun otherId =>
      if otherId ∈ ids ∧ CollisionSystem.pairKey c.id otherId ∉ cur ∧ c.onCollisionExit = true
      then some (⟨c.id, EventKind.exit, otherId⟩ : Event) else none) [pid] = [] := by
    rw [List.filterMap_cons, if_neg (fun hcon => hnotin hcon.1)]
    rfl
  have h2 : List.filter (fun otherId =>
      decide (otherId ∈ ids ∧ CollisionSystem.pairKey c.id otherId ∈ cur)) [pid] = [] := by
    rw [List.filter_cons, if_neg (by simp [hnotin])]
    rfl
  rw [h1, h2]

theorem update_one (x : Collider) :
    CollisionSystem.update [x] =
      ([(CollisionSystem.exitPassOne [x.updateWorldPosition.id] [] x.updateWorldPosition).1],
       (CollisionSystem.exitPassOne [x.updateWorldPosition.id] [] x.updateWorldPosition).2) := rfl

/-- C3: removing a collider mid-overlap does not immediately purge its id
from partners and fires no `onExit` anywhere — the partner's stale id is
purged silently on the next `update` (the missing-collider branch of the
exit pass skips the callback), and the removed collider receives nothing. -/
theorem spec_C3_counterexample :
    CollisionSystem.removeCollider [remA, remB] 2 = [remA] ∧
    (2 : ℕ) ∈ remA.activeCollisions := by
  constructor
  · unfold CollisionSystem.removeCollider
    rw [if_pos (by simp [remA, remB, mkDyn])]
    simp [remA, remB, mkDyn]
  · simp [remA, mkDyn]

/-- C3 (amended): removing collider B from a registry `[A, B]` while the
pair is mid-overlap leaves A (and its `activeCollisions`, still holding
B's id) untouched and fires no callback; the next `update` then purges
B's id from A's active set silently — no `onExit` fires on A and no
callback of any kind is delivered to B. -/
theorem spec_C3 (A B : Collider) (hid : A.id ≠ B.id)
    (hactA : A.activeCollisions = [B.id]) :
    CollisionSystem.removeCollider [A, B] B.id = [A] ∧
    B.id ∈ A.activeCollisions ∧
    (CollisionSystem.update [A]).2 = [] ∧
    (∃ A', (CollisionSystem.update [A]).1 = [A'] ∧ staticEq A A' ∧
      A'.activeCollisions = []) := by
  have hrem : CollisionSystem.removeCollider [A, B] B.id = [A] := by
    unfold CollisionSystem.removeCollider
    rw [if_pos (by simp)]
    simp [hid]
  have hgone : CollisionSystem.exitPassOne [A.updateWorldPosition.id] [] A.updateWorldPosition =
      ({ A.updateWorldPosition with activeCollisions := [] }, []) := by
    apply exitPassOne_gone _ _ _ B.id
    · simp [hactA]
    · simp only [Collider.uwp_id, List.mem_singleton]
      exact fun h => hid h.symm
  refine ⟨hrem, by rw [hactA]; exact List.mem_singleton_self _, ?_, ?_⟩
  · rw [update_one, hgone]
  · refine ⟨{ A.updateWorldPosition with activeCollisions := [] }, ?_, ?_, rfl⟩
    · rw [update_one, hgone]
    · unfold staticEq
      rw [core_set_active, core_uwp]

theorem spec_C3_witness :
    remA.id ≠ remB.id ∧ remA.activeCollisions = [remB.id] ∧
    (CollisionSystem.removeCollider [remA, remB] remB.id = [remA] ∧
     remB.id ∈ remA.activeCollisions ∧
     (CollisionSystem.update [remA]).2 = [] ∧
     (∃ A', (CollisionSystem.update [remA]).1 = [A'] ∧ staticEq remA A' ∧
       A'.activeCollisions = [])) := by
  have h1 : remA.id ≠ remB.id := by simp [remA, remB, mkDyn]
  have h2 : remA.activeCollisions = [remB.id] := by simp [remA, remB, mkDyn]
  exact ⟨h1, h2, spec_C3 remA remB h1 h2⟩


theorem canCollideWith_ne (a b : Collider) (h : a.canCollideWith b = true) : a.id ≠ b.id := by
  intro he
  unfold Collider.canCollideWith at h
  simp [he] at h

theorem getD_selfFree (arr : List Collider) (h : SelfFree arr) (i : ℕ) :
    (arr.getD i default).id ∉ (arr.getD i default).activeCollisions := by
  by_cases hi : i < arr.length
  · rw [List.getD_eq_getElem _ _ hi]
    exact h _ (arr.getElem_mem hi)
  · rw [List.getD_eq_default _ _ (not_lt.1 hi)]
    simp [default]

theorem resolveCollision_fst_id (a b : Collider) (r : Response) :
    (CollisionSystem.resolveCollision a b r).1.id = a.id ∧
    (CollisionSystem.resolveCollision a b r).1.activeCollisions = a.activeCollisions ∧
    (CollisionSystem.resolveCollision a b r).2.id = b.id ∧
    (CollisionSystem.resolveCollision a b r).2.activeCollisions = b.activeCollisions := by
  obtain ⟨p, q, heq⟩ := resolveCollision_parents a b r
  rw [heq]
  exact ⟨rfl, rfl, rfl, rfl⟩

theorem selfFree_of_mem_set {arr : List Collider} {i : ℕ} {x c : Collider}
    (hc : c ∈ arr.set i x) (harr : SelfFree arr)
    (hx : x.id ∉ x.activeCollisions) : c.id ∉ c.activeCollisions := by
  rcases List.mem_or_eq_of_mem_set hc with hmem | rfl
  · exact harr _ hmem
  · exact hx

theorem selfFree_pairStep (s : CollisionSystem.SweepState) (i j : ℕ)
    (h : SelfFree s.arr) : SelfFree (CollisionSystem.pairStep s i j).arr := by
  unfold CollisionSystem.pairStep
  dsimp only
  by_cases hcan : (s.arr.getD i default).canCollideWith (s.arr.getD j default) = true
  case neg =>
    rw [if_neg hcan]
    exact h
  rw [if_pos hcan]
  have hne := canCollideWith_ne _ _ hcan
  have ha1 : (s.arr.getD i default).updateWorldPosition.id ∉
      (s.arr.getD i default).updateWorldPosition.activeCollisions := by
    simp only [Collider.uwp_id, Collider.uwp_active]
    exact getD_selfFree s.arr h i
  have hb1 : (s.arr.getD j default).updateWorldPosition.id ∉
      (s.arr.getD j default).updateWorldPosition.activeCollisions := by
    simp only [Collider.uwp_id, Collider.uwp_active]
    exact getD_selfFree s.arr h j
  by_cases hnar : CollisionSystem.narrowTest (s.arr.getD i default).updateWorldPosition
      (s.arr.getD j default).updateWorldPosition
  case neg =>
    rw [if_neg hnar]
    dsimp only
    intro c hc
    refine selfFree_of_mem_set hc ?_ hb1
    intro c' hc'
    exact selfFree_of_mem_set hc' h ha1
  rw [if_pos hnar]
  dsimp only
  have haddA : (CollisionSystem.addActive (s.arr.getD i default).updateWorldPosition
      (s.arr.getD j default).updateWorldPosition.id).id ∉
      (CollisionSystem.addActive (s.arr.getD i default).updateWorldPosition
        (s.arr.getD j default).updateWorldPosition.id).activeCollisions := by
    unfold CollisionSystem.addActive
    split_ifs
    · exact ha1
    · simp only [Collider.uwp_id, Collider.uwp_active, List.mem_append, List.mem_singleton]
      rintro (hm | he)
      · exact ha1 (by simpa using hm)
      · exact hne (by simpa using he)
  have haddB : (CollisionSystem.addActive (s.arr.getD j default).updateWorldPosition
      (s.arr.getD i default).updateWorldPosition.id).id ∉
      (CollisionSystem.addActive (s.arr.getD j default).updateWorldPosition
        (s.arr.getD i default).updateWorldPosition.id).activeCollisions := by
    unfold CollisionSystem.addActive
    split_ifs
    · exact hb1
    · simp only [Collider.uwp_id, Collider.uwp_active, List.mem_append, List.mem_singleton]
      rintro (hm | he)
      · exact hb1 (by simpa using hm)
      · exact hne (by simpa using he.symm)
  by_cases hwas : (s.arr.getD j default).updateWorldPosition.id ∈
      (s.arr.getD i default).updateWorldPosition.activeCollisions
  · simp only [if_pos hwas]
    obtain ⟨hr1, hr2, hr3, hr4⟩ := resolveCollision_fst_id
      (s.arr.getD i default).updateWorldPosition
      (s.arr.getD j default).updateWorldPosition
      (CollisionSystem.getCollisionResponse (s.arr.getD i default).updateWorldPosition
        (s.arr.getD j default).updateWorldPosition)
    intro c hc
    refine selfFree_of_mem_set hc ?_ ?_
    · intro c' hc'
      refine selfFree_of_mem_set hc' ?_ ?_
      · intro c'' hc''
        refine selfFree_of_mem_set hc'' ?_ hb1
        intro c3 hc3
        exact selfFree_of_mem_set hc3 h ha1
      · rw [hr1, hr2]
        exact ha1
    · rw [hr3, hr4]
      exact hb1
  · simp only [if_neg hwas]
    obtain ⟨hr1, hr2, hr3, hr4⟩ := resolveCollision_fst_id
      (CollisionSystem.addActive (s.arr.getD i default).updateWorldPosition
        (s.arr.getD j default).updateWorldPosition.id)
      (CollisionSystem.addActive (s.arr.getD j default).updateWorldPosition
        (s.arr.getD i default).updateWorldPosition.id)
      (CollisionSystem.getCollisionResponse (s.arr.getD i default).updateWorldPosition
        (s.arr.getD j default).updateWorldPosition)
    intro c hc
    refine selfFree_of_mem_set hc ?_ ?_
    · intro c' hc'
      refine selfFree_of_mem_set hc' ?_ ?_
      · intro c'' hc''
        refine selfFree_of_mem_set hc'' ?_ hb1
        intro c3 hc3
        exact selfFree_of_mem_set hc3 h ha1
      · rw [hr1, hr2]
        exact haddA
    · rw [hr3, hr4]
      exact haddB

theorem selfFree_innerFold (i : ℕ) (l : List ℕ) (s : CollisionSystem.SweepState)
    (h : SelfFree s.arr) :
    SelfFree ((l.foldl (fun s2 j => if i < j then CollisionSystem.pairStep s2 i j else s2)
      s).arr) := by
  induction l generalizing s with
  | nil => exact h
  | cons j t ih =>
    simp only [List.foldl_cons]
    apply ih
    by_cases hij : i < j
    · rw [if_pos hij]
      exact selfFree_pairStep _ _ _ h
    · rw [if_neg hij]
      exact h

theorem selfFree_outerFold (m l : List ℕ) (s : CollisionSystem.SweepState)
    (h : SelfFree s.arr) :
    SelfFree ((l.foldl (fun s1 i =>
      m.foldl (fun s2 j => if i < j then CollisionSystem.pairStep s2 i j else s2) s1) s).arr) := by
  induction l generalizing s with
  | nil => exact h
  | cons i t ih =>
    simp only [List.foldl_cons]
    exact ih _ (selfFree_innerFold i m s h)

theorem exitPassOne_selfFree (ids : List ℕ) (cur : List (ℕ × ℕ)) (c : Collider)
    (h : c.id ∉ c.activeCollisions) :
    (CollisionSystem.exitPassOne ids cur c).1.id ∉
      (CollisionSystem.exitPassOne ids cur c).1.activeCollisions := by
  unfold CollisionSystem.exitPassOne
  dsimp only
  intro hmem
  exact h (List.mem_of_mem_filter hmem)

theorem selfFree_exitLoop_aux (ids : List ℕ) (cur : List (ℕ × ℕ)) (arr : List Collider) :
    ∀ acc : List Collider × List Event, SelfFree acc.1 → SelfFree arr →
    SelfFree ((arr.foldl (fun (acc : List Collider × List Event) c =>
      let pr := CollisionSystem.exitPassOne ids cur c
      (acc.1 ++ [pr.1], acc.2 ++ pr.2)) acc).1) := by
  induction arr with
  | nil =>
    intro acc hacc _
    exact hacc
  | cons c t ih =>
    intro acc hacc h
    simp only [List.foldl_cons]
    refine ih _ ?_ (fun d hd => h _ (List.mem_cons_of_mem _ hd))
    intro d hd
    rcases List.mem_append.1 hd with hd | hd
    · exact hacc _ hd
    · rw [List.mem_singleton] at hd
      subst hd
      exact exitPassOne_selfFree ids cur c (h _ (List.mem_cons_self c t))

theorem selfFree_map_uwp (arr : List Collider) (h : SelfFree arr) :
    SelfFree (arr.map Collider.updateWorldPosition) := by
  intro c hc
  obtain ⟨d, hd, rfl⟩ := List.mem_map.1 hc
  simp only [Collider.uwp_id, Collider.uwp_active]
  exact h _ hd

theorem selfFree_update (arr : List Collider) (h : SelfFree arr) :
    SelfFree (CollisionSystem.update arr).1 := by
  unfold CollisionSystem.update CollisionSystem.exitLoop CollisionSystem.pairLoop
  dsimp only
  apply selfFree_exitLoop_aux
  · intro d hd
    simp at hd
  · exact selfFree_outerFold _ _ _ (selfFree_map_uwp arr h)

theorem selfFree_iterUpdate (n : ℕ) (arr : List Collider) (h : SelfFree arr) :
    SelfFree (CollisionSystem.iterUpdate n arr) := by
  induction n generalizing arr with
  | zero => exact h
  | succ m ih =>
    unfold CollisionSystem.iterUpdate
    exact ih _ (selfFree_update arr h)

/-- C10: a collider can never collide with itself (`canCollideWith(A,A)` is
false for every collider), and over any number of update sweeps no
collider's active-collision set ever comes to contain its own id. -/
theorem spec_C10 :
    (∀ c : Collider, c.canCollideWith c = false) ∧
    (∀ (n : ℕ) (arr : List Collider), SelfFree arr →
      SelfFree (CollisionSystem.iterUpdate n arr)) := by
  constructor
  · intro c
    unfold Collider.canCollideWith
    cases hc : c.enabled <;> simp [hc]
  · intro n arr h
    exact selfFree_iterUpdate n arr h

theorem spec_C10_witness :
    SelfFree [w5A, w5B] ∧ SelfFree (CollisionSystem.iterUpdate 1 [w5A, w5B]) := by
  have h : SelfFree [w5A, w5B] := by
    intro c hc
    rcases List.mem_cons.1 hc with rfl | hc
    · simp [w5A, mkDyn]
    · rcases List.mem_cons.1 hc with rfl | hc
      · simp [w5B, mkDyn]
      · simp at hc
  exact ⟨h, spec_C10.2 1 [w5A, w5B] h⟩

theorem staticEq_parents {A A' : Collider} (h : staticEq A A') (p0 p1 : Option Vec3) :
    staticEq { A with parent := p0 } { A' with parent := p1 } := by
  unfold staticEq
  rw [core_set_parent, core_set_parent]
  exact h

theorem checkCollision_congr {A B A' B' : Collider} (hA : staticEq A A') (hB : staticEq B B')
    (p q : Vec3) :
    CollisionSystem.checkCollision { A' with parent := some p } { B' with parent := some q } ↔
    CollisionSystem.checkCollision { A with parent := some p } { B with parent := some q } := by
  unfold CollisionSystem.checkCollision
  have h1 : ({ A' with parent := some p } : Collider).canCollideWith
      { B' with parent := some q } =
      ({ A with parent := some p } : Collider).canCollideWith { B with parent := some q } :=
    canCollideWith_congr (staticEq_parents hA _ _) (staticEq_parents hB _ _)
  have hshA : ({ A' with parent := some p } : Collider).updateWorldPosition.shape =
      ({ A with parent := some p } : Collider).updateWorldPosition.shape := by
    simp only [Collider.uwp_shape]
    exact (staticEq_fields hA).2.1
  have hshB : ({ B' with parent := some q } : Collider).updateWorldPosition.shape =
      ({ B with parent := some q } : Collider).updateWorldPosition.shape := by
    simp only [Collider.uwp_shape]
    exact (staticEq_fields hB).2.1
  have hwpA : ({ A' with parent := some p } : Collider).updateWorldPosition.worldPosition =
      ({ A with parent := some p } : Collider).updateWorldPosition.worldPosition := by
    rw [Collider.uwp_wp_of_parent _ p rfl, Collider.uwp_wp_of_parent _ p rfl]
    dsimp only
    rw [(staticEq_fields hA).2.2.2.2.2.2.2.1]
  have hwpB : ({ B' with parent := some q } : Collider).updateWorldPosition.worldPosition =
      ({ B with parent := some q } : Collider).updateWorldPosition.worldPosition := by
    rw [Collider.uwp_wp_of_parent _ q rfl, Collider.uwp_wp_of_parent _ q rfl]
    dsimp only
    rw [(staticEq_fields hB).2.2.2.2.2.2.2.1]
  rw [h1]
  exact and_congr Iff.rfl (narrowTest_congr hshA hwpA hshB hwpB)

theorem pairKey_comm (i j : ℕ) (h : i ≠ j) :
    CollisionSystem.pairKey i j = CollisionSystem.pairKey j i := by
  unfold CollisionSystem.pairKey
  rcases lt_trichotomy i j with hij | rfl | hij
  · rw [if_pos hij, if_neg (not_lt.2 (le_of_lt hij))]
  · exact absurd rfl h
  · rw [if_neg (not_lt.2 (le_of_lt hij)), if_pos hij]

theorem setPair_two (A' B' : Collider) (p q : Vec3) :
    setPair [A', B'] p q = [{ A' with parent := some p }, { B' with parent := some q }] := rfl

theorem exit_stage_keep (r1 r2 : Collider) (aId bId : ℕ) (hne : aId ≠ bId)
    (h1 : r1.id = aId) (h2 : r2.id = bId)
    (ha : r1.activeCollisions = [bId]) (hb : r2.activeCollisions = [aId])
    (cur : List (ℕ × ℕ)) (hkey : CollisionSystem.pairKey aId bId ∈ cur) :
    CollisionSystem.exitLoop ([r1, r2].map Collider.id) cur [r1, r2] = ([r1, r2], []) := by
  rw [exitLoop_two]
  rw [exitPassOne_keep _ _ r1 bId ha (by simp [h2]) (by rw [h1]; exact hkey)]
  rw [exitPassOne_keep _ _ r2 aId hb (by simp [h1])
    (by rw [h2, pairKey_comm bId aId (fun hh => hne hh.symm)]; exact hkey)]
  rfl

theorem exit_stage_nil (r1 r2 : Collider) (cur : List (ℕ × ℕ))
    (ha : r1.activeCollisions = []) (hb : r2.activeCollisions = []) :
    CollisionSystem.exitLoop ([r1, r2].map Collider.id) cur [r1, r2] = ([r1, r2], []) := by
  rw [exitLoop_two]
  rw [exitPassOne_nil _ _ r1 ha, exitPassOne_nil _ _ r2 hb]
  rfl

theorem exit_stage_fire (r1 r2 : Collider) (aId bId : ℕ)
    (h1 : r1.id = aId) (h2 : r2.id = bId)
    (ha : r1.activeCollisions = [bId]) (hb : r2.activeCollisions = [aId])
    (hf1 : r1.onCollisionExit = true) (hf2 : r2.onCollisionExit = true) :
    CollisionSystem.exitLoop ([r1, r2].map Collider.id) [] [r1, r2] =
      ([{ r1 with activeCollisions := [] }, { r2 with activeCollisions := [] }],
       [⟨aId, EventKind.exit, bId⟩, ⟨bId, EventKind.exit, aId⟩]) := by
  rw [exitLoop_two]
  rw [exitPassOne_fire _ _ r1 bId ha (by simp [h2]) (by simp) hf1]
  rw [exitPassOne_fire _ _ r2 aId hb (by simp [h1]) (by simp) hf2]
  rw [h1, h2]
  rfl

theorem pairStep_enter' (u v : Collider) (cur : List (ℕ × ℕ)) (ev : List Event)
    (hcan : u.canCollideWith v = true)
    (hnar : CollisionSystem.narrowTest u.updateWorldPosition v.updateWorldPosition)
    (hwas : v.id ∉ u.activeCollisions) :
    CollisionSystem.pairStep ⟨[u.updateWorldPosition, v.updateWorldPosition], cur, ev⟩ 0 1 =
      ⟨[(CollisionSystem.resolveCollision
            (CollisionSystem.addActive u.updateWorldPosition v.id)
            (CollisionSystem.addActive v.updateWorldPosition u.id)
            (CollisionSystem.getCollisionResponse u.updateWorldPosition v.updateWorldPosition)).1,
         (CollisionSystem.resolveCollision
            (CollisionSystem.addActive u.updateWorldPosition v.id)
            (CollisionSystem.addActive v.updateWorldPosition u.id)
            (CollisionSystem.getCollisionResponse u.updateWorldPosition v.updateWorldPosition)).2],
       (if CollisionSystem.pairKey u.id v.id ∈ cur then cur
        else cur ++ [CollisionSystem.pairKey u.id v.id]),
       ev ++ ((if u.onCollisionEnter then [⟨u.id, EventKind.enter, v.id⟩] else []) ++
              (if v.onCollisionEnter then [⟨v.id, EventKind.enter, u.id⟩] else []))⟩ := by
  have h := pairStep_enter u.updateWorldPosition v.updateWorldPosition cur ev
    (by rw [canCollideWith_uwp]; exact hcan)
    (by rw [Collider.uwp_idem, Collider.uwp_idem]; exact hnar)
    (by simp only [Collider.uwp_id, Collider.uwp_active]; exact hwas)
  rw [h]
  simp only [Collider.uwp_idem, Collider.uwp_id, Collider.uwp_onEnter]

theorem pairStep_stay' (u v : Collider) (cur : List (ℕ × ℕ)) (ev : List Event)
    (hcan : u.canCollideWith v = true)
    (hnar : CollisionSystem.narrowTest u.updateWorldPosition v.updateWorldPosition)
    (hwas : v.id ∈ u.activeCollisions) :
    CollisionSystem.pairStep ⟨[u.updateWorldPosition, v.updateWorldPosition], cur, ev⟩ 0 1 =
      ⟨[(CollisionSystem.resolveCollision u.updateWorldPosition v.updateWorldPosition
            (CollisionSystem.getCollisionResponse u.updateWorldPosition v.updateWorldPosition)).1,
         (CollisionSystem.resolveCollision u.updateWorldPosition v.updateWorldPosition
            (CollisionSystem.getCollisionResponse u.updateWorldPosition v.updateWorldPosition)).2],
       (if CollisionSystem.pairKey u.id v.id ∈ cur then cur
        else cur ++ [CollisionSystem.pairKey u.id v.id]),
       ev ++ ((if u.onCollisionStay then [⟨u.id, EventKind.stay, v.id⟩] else []) ++
              (if v.onCollisionStay then [⟨v.id, EventKind.stay, u.id⟩] else []))⟩ := by
  have h := pairStep_stay u.updateWorldPosition v.updateWorldPosition cur ev
    (by rw [canCollideWith_uwp]; exact hcan)
    (by rw [Collider.uwp_idem, Collider.uwp_idem]; exact hnar)
    (by simp only [Collider.uwp_id, Collider.uwp_active]; exact hwas)
  rw [h]
  simp only [Collider.uwp_idem, Collider.uwp_id, Collider.uwp_onStay]

theorem pairStep_miss' (u v : Collider) (cur : List (ℕ × ℕ)) (ev : List Event)
    (hmiss : ¬ CollisionSystem.checkCollision u v) :
    CollisionSystem.pairStep ⟨[u.updateWorldPosition, v.updateWorldPosition], cur, ev⟩ 0 1 =
      ⟨[u.updateWorldPosition, v.updateWorldPosition], cur, ev⟩ := by
  cases hb : u.canCollideWith v with
  | false =>
    exact pairStep_no_can _ _ _ _ (by rw [canCollideWith_uwp]; exact hb)
  | true =>
    have hnar : ¬ CollisionSystem.narrowTest u.updateWorldPosition v.updateWorldPosition :=
      fun hn => hmiss ⟨hb, hn⟩
    have h := pairStep_no_narrow u.updateWorldPosition v.updateWorldPosition cur ev
      (by rw [canCollideWith_uwp]; exact hb)
      (by rw [Collider.uwp_idem, Collider.uwp_idem]; exact hnar)
    rw [h]
    simp only [Collider.uwp_idem]

theorem update_two_enter (u v : Collider) (hne : u.id ≠ v.id)
    (hcan : u.canCollideWith v = true)
    (hnar : CollisionSystem.narrowTest u.updateWorldPosition v.updateWorldPosition)
    (hactA : u.activeCollisions = []) (hactB : v.activeCollisions = [])
    (hEn1 : u.onCollisionEnter = true) (hEn2 : v.onCollisionEnter = true) :
    ∃ r1 r2 : Collider,
      CollisionSystem.update [u, v] =
        ([r1, r2], [⟨u.id, EventKind.enter, v.id⟩, ⟨v.id, EventKind.enter, u.id⟩]) ∧
      r1.core = u.core ∧ r2.core = v.core ∧
      r1.activeCollisions = [v.id] ∧ r2.activeCollisions = [u.id] := by
  obtain ⟨p1, q1, hres⟩ := resolveCollision_parents
    (CollisionSystem.addActive u.updateWorldPosition v.id)
    (CollisionSystem.addActive v.updateWorldPosition u.id)
    (CollisionSystem.getCollisionResponse u.updateWorldPosition v.updateWorldPosition)
  have hid1 : ({ CollisionSystem.addActive u.updateWorldPosition v.id with
      parent := p1 } : Collider).id = u.id := by
    show (CollisionSystem.addActive u.updateWorldPosition v.id).id = u.id
    rw [addActive_id, Collider.uwp_id]
  have hid2 : ({ CollisionSystem.addActive v.updateWorldPosition u.id with
      parent := q1 } : Collider).id = v.id := by
    show (CollisionSystem.addActive v.updateWorldPosition u.id).id = v.id
    rw [addActive_id, Collider.uwp_id]
  have hact1 : ({ CollisionSystem.addActive u.updateWorldPosition v.id with
      parent := p1 } : Collider).activeCollisions = [v.id] := by
    show (CollisionSystem.addActive u.updateWorldPosition v.id).activeCollisions = [v.id]
    rw [addActive_active_not_mem _ _ (by simp [hactA])]
    rw [Collider.uwp_active, hactA]
    rfl
  have hact2 : ({ CollisionSystem.addActive v.updateWorldPosition u.id with
      parent := q1 } : Collider).activeCollisions = [u.id] := by
    show (CollisionSystem.addActive v.updateWorldPosition u.id).activeCollisions = [u.id]
    rw [addActive_active_not_mem _ _ (by simp [hactB])]
    rw [Collider.uwp_active, hactB]
    rfl
  refine ⟨{ CollisionSystem.addActive u.updateWorldPosition v.id with parent := p1 },
          { CollisionSystem.addActive v.updateWorldPosition u.id with parent := q1 },
          ?_, ?_, ?_, hact1, hact2⟩
  · rw [update_two, pairStep_enter' u v [] [] hcan hnar (by rw [hactA]; simp)]
    dsimp only
    rw [hres]
    dsimp only
    rw [exit_stage_keep _ _ u.id v.id hne hid1 hid2 hact1 hact2 _ (by simp)]
    dsimp only
    simp [hEn1, hEn2]
  · rw [core_set_parent, core_addActive, core_uwp]
  · rw [core_set_parent, core_addActive, core_uwp]

theorem update_two_stay (u v : Collider) (hne : u.id ≠ v.id)
    (hcan : u.canCollideWith v = true)
    (hnar : CollisionSystem.narrowTest u.updateWorldPosition v.updateWorldPosition)
    (hactA : u.activeCollisions = [v.id]) (hactB : v.activeCollisions = [u.id])
    (hSt1 : u.onCollisionStay = true) (hSt2 : v.onCollisionStay = true) :
    ∃ r1 r2 : Collider,
      CollisionSystem.update [u, v] =
        ([r1, r2], [⟨u.id, EventKind.stay, v.id⟩, ⟨v.id, EventKind.stay, u.id⟩]) ∧
      r1.core = u.core ∧ r2.core = v.core ∧
      r1.activeCollisions = [v.id] ∧ r2.activeCollisions = [u.id] := by
  obtain ⟨p1, q1, hres⟩ := resolveCollision_parents u.updateWorldPosition v.updateWorldPosition
    (CollisionSystem.getCollisionResponse u.updateWorldPosition v.updateWorldPosition)
  have hid1 : ({ u.updateWorldPosition with parent := p1 } : Collider).id = u.id := by
    show u.updateWorldPosition.id = u.id
    rw [Collider.uwp_id]
  have hid2 : ({ v.updateWorldPosition with parent := q1 } : Collider).id = v.id := by
    show v.updateWorldPosition.id = v.id
    rw [Collider.uwp_id]
  have hact1 : ({ u.updateWorldPosition with parent := p1 } : Collider).activeCollisions =
      [v.id] := by
    show u.updateWorldPosition.activeCollisions = [v.id]
    rw [Collider.uwp_active, hactA]
  have hact2 : ({ v.updateWorldPosition with parent := q1 } : Collider).activeCollisions =
      [u.id] := by
    show v.updateWorldPosition.activeCollisions = [u.id]
    rw [Collider.uwp_active, hactB]
  refine ⟨{ u.updateWorldPosition with parent := p1 },
          { v.updateWorldPosition with parent := q1 }, ?_, ?_, ?_, hact1, hact2⟩
  · rw [update_two, pairStep_stay' u v [] [] hcan hnar (by rw [hactA]; simp)]
    dsimp only
    rw [hres]
    dsimp only
    rw [exit_stage_keep _ _ u.id v.id hne hid1 hid2 hact1 hact2 _ (by simp)]
    dsimp only
    simp [hSt1, hSt2]
  · rw [core_set_parent, core_uwp]
  · rw [core_set_parent, core_uwp]

theorem update_two_miss_none (u v : Collider)
    (hmiss : ¬ CollisionSystem.checkCollision u v)
    (hactA : u.activeCollisions = []) (hactB : v.activeCollisions = []) :
    ∃ r1 r2 : Collider,
      CollisionSystem.update [u, v] = ([r1, r2], []) ∧
      r1.core = u.core ∧ r2.core = v.core ∧
      r1.activeCollisions = [] ∧ r2.activeCollisions = [] := by
  have hact1 : u.updateWorldPosition.activeCollisions = [] := by
    rw [Collider.uwp_active, hactA]
  have hact2 : v.updateWorldPosition.activeCollisions = [] := by
    rw [Collider.uwp_active, hactB]
  refine ⟨u.updateWorldPosition, v.updateWorldPosition, ?_, core_uwp u, core_uwp v,
    hact1, hact2⟩
  rw [update_two, pairStep_miss' u v [] [] hmiss]
  dsimp only
  rw [exit_stage_nil _ _ _ hact1 hact2]
  rfl

theorem update_two_miss_exit (u v : Collider)
    (hmiss : ¬ CollisionSystem.checkCollision u v)
    (hactA : u.activeCollisions = [v.id]) (hactB : v.activeCollisions = [u.id])
    (hEx1 : u.onCollisionExit = true) (hEx2 : v.onCollisionExit = true) :
    ∃ r1 r2 : Collider,
      CollisionSystem.update [u, v] =
        ([r1, r2], [⟨u.id, EventKind.exit, v.id⟩, ⟨v.id, EventKind.exit, u.id⟩]) ∧
      r1.core = u.core ∧ r2.core = v.core ∧
      r1.activeCollisions = [] ∧ r2.activeCollisions = [] := by
  have hact1 : u.updateWorldPosition.activeCollisions = [v.id] := by
    rw [Collider.uwp_active, hactA]
  have hact2 : v.updateWorldPosition.activeCollisions = [u.id] := by
    rw [Collider.uwp_active, hactB]
  refine ⟨{ u.updateWorldPosition with activeCollisions := [] },
          { v.updateWorldPosition with activeCollisions := [] }, ?_, ?_, ?_, rfl, rfl⟩
  · rw [update_two, pairStep_miss' u v [] [] hmiss]
    dsimp only
    rw [exit_stage_fire _ _ u.id v.id (by rw [Collider.uwp_id]) (by rw [Collider.uwp_id])
      hact1 hact2 (by rw [Collider.uwp_onExit]; exact hEx1)
      (by rw [Collider.uwp_onExit]; exact hEx2)]
    rfl
  · rw [core_set_active, core_uwp]
  · rw [core_set_active, core_uwp]

theorem tick_overlap (A B : Collider) (hid : A.id ≠ B.id)
    (hcbA : allCallbacks A) (hcbB : allCallbacks B) (act : Bool)
    (st : List Collider) (hst : pairState A B act st)
    (t : Vec3 × Vec3) (hov : pairOverlap A B t) :
    pairState A B true (CollisionSystem.update (setPair st t.1 t.2)).1 ∧
    (CollisionSystem.update (setPair st t.1 t.2)).2 =
      (if act then [⟨A.id, EventKind.stay, B.id⟩, ⟨B.id, EventKind.stay, A.id⟩]
       else [⟨A.id, EventKind.enter, B.id⟩, ⟨B.id, EventKind.enter, A.id⟩]) := by
  obtain ⟨A', B', rfl, hA, hB, hactA, hactB⟩ := hst
  rw [setPair_two]
  have hfA := staticEq_fields hA
  have hfB := staticEq_fields hB
  have hcheck : CollisionSystem.checkCollision ({ A' with parent := some t.1 } : Collider)
      { B' with parent := some t.2 } := (checkCollision_congr hA hB t.1 t.2).mpr hov
  obtain ⟨hcan, hnar⟩ := hcheck
  have huid : ({ A' with parent := some t.1 } : Collider).id = A.id := hfA.1
  have hvid : ({ B' with parent := some t.2 } : Collider).id = B.id := hfB.1
  have hneuv : ({ A' with parent := some t.1 } : Collider).id ≠
      ({ B' with parent := some t.2 } : Collider).id := by
    rw [huid, hvid]
    exact hid
  have hcoreU : ({ A' with parent := some t.1 } : Collider).core = A.core := by
    rw [core_set_parent]
    exact hA
  have hcoreV : ({ B' with parent := some t.2 } : Collider).core = B.core := by
    rw [core_set_parent]
    exact hB
  cases act with
  | false =>
    simp only [if_neg (Bool.false_ne_true)] at hactA hactB
    obtain ⟨r1, r2, hupd, hc1, hc2, ha1, ha2⟩ :=
      update_two_enter { A' with parent := some t.1 } { B' with parent := some t.2 }
        hneuv hcan hnar hactA hactB
        (by show A'.onCollisionEnter = true; rw [hfA.2.2.2.2.2.2.2.2.1]; exact hcbA.1)
        (by show B'.onCollisionEnter = true; rw [hfB.2.2.2.2.2.2.2.2.1]; exact hcbB.1)
    constructor
    · refine ⟨r1, r2, congrArg Prod.fst hupd, hc1.trans hcoreU, hc2.trans hcoreV, ?_, ?_⟩
      · rw [ha1, hvid]
        rfl
      · rw [ha2, huid]
        rfl
    · rw [congrArg Prod.snd hupd]
      simp [hfA.1, hfB.1]
  | true =>
    simp only [if_pos rfl] at hactA hactB
    rw [show ([B.id] : List ℕ) = [({ B' with parent := some t.2 } : Collider).id] from
      by rw [hvid]] at hactA
    rw [show ([A.id] : List ℕ) = [({ A' with parent := some t.1 } : Collider).id] from
      by rw [huid]] at hactB
    obtain ⟨r1, r2, hupd, hc1, hc2, ha1, ha2⟩ :=
      update_two_stay { A' with parent := some t.1 } { B' with parent := some t.2 }
        hneuv hcan hnar hactA hactB
        (by show A'.onCollisionStay = true; rw [hfA.2.2.2.2.2.2.2.2.2.1]; exact hcbA.2.1)
        (by show B'.onCollisionStay = true; rw [hfB.2.2.2.2.2.2.2.2.2.1]; exact hcbB.2.1)
    constructor
    · refine ⟨r1, r2, congrArg Prod.fst hupd, hc1.trans hcoreU, hc2.trans hcoreV, ?_, ?_⟩
      · rw [ha1, hvid]
        rfl
      · rw [ha2, huid]
        rfl
    · rw [congrArg Prod.snd hupd]
      simp [hfA.1, hfB.1]

theorem tick_miss (A B : Collider)
    (hcbA : allCallbacks A) (hcbB : allCallbacks B) (act : Bool)
    (st : List Collider) (hst : pairState A B act st)
    (t : Vec3 × Vec3) (hov : ¬ pairOverlap A B t) :
    pairState A B false (CollisionSystem.update (setPair st t.1 t.2)).1 ∧
    (CollisionSystem.update (setPair st t.1 t.2)).2 =
      (if act then [⟨A.id, EventKind.exit, B.id⟩, ⟨B.id, EventKind.exit, A.id⟩]
       else []) := by
  obtain ⟨A', B', rfl, hA, hB, hactA, hactB⟩ := hst
  rw [setPair_two]
  have hfA := staticEq_fields hA
  have hfB := staticEq_fields hB
  have hcheck : ¬ CollisionSystem.checkCollision ({ A' with parent := some t.1 } : Collider)
      { B' with parent := some t.2 } :=
    fun hc => hov ((checkCollision_congr hA hB t.1 t.2).mp hc)
  have huid : ({ A' with parent := some t.1 } : Collider).id = A.id := hfA.1
  have hvid : ({ B' with parent := some t.2 } : Collider).id = B.id := hfB.1
  have hcoreU : ({ A' with parent := some t.1 } : Collider).core = A.core := by
    rw [core_set_parent]
    exact hA
  have hcoreV : ({ B' with parent := some t.2 } : Collider).core = B.core := by
    rw [core_set_parent]
    exact hB
  cases act with
  | false =>
    simp only [if_neg (Bool.false_ne_true)] at hactA hactB
    obtain ⟨r1, r2, hupd, hc1, hc2, ha1, ha2⟩ :=
      update_two_miss_none { A' with parent := some t.1 } { B' with parent := some t.2 }
        hcheck hactA hactB
    constructor
    · exact ⟨r1, r2, congrArg Prod.fst hupd, hc1.trans hcoreU, hc2.trans hcoreV,
        by rw [ha1]; rfl, by rw [ha2]; rfl⟩
    · rw [congrArg Prod.snd hupd]
      simp
  | true =>
    simp only [if_pos rfl] at hactA hactB
    rw [show ([B.id] : List ℕ) = [({ B' with parent := some t.2 } : Collider).id] from
      by rw [hvid]] at hactA
    rw [show ([A.id] : List ℕ) = [({ A' with parent := some t.1 } : Collider).id] from
      by rw [huid]] at hactB
    obtain ⟨r1, r2, hupd, hc1, hc2, ha1, ha2⟩ :=
      update_two_miss_exit { A' with parent := some t.1 } { B' with parent := some t.2 }
        hcheck hactA hactB
        (by show A'.onCollisionExit = true; rw [hfA.2.2.2.2.2.2.2.2.2.2]; exact hcbA.2.2)
        (by show B'.onCollisionExit = true; rw [hfB.2.2.2.2.2.2.2.2.2.2]; exact hcbB.2.2)
    constructor
    · exact ⟨r1, r2, congrArg Prod.fst hupd, hc1.trans hcoreU, hc2.trans hcoreV,
        by rw [ha1]; rfl, by rw [ha2]; rfl⟩
    · rw [congrArg Prod.snd hupd]
      simp [hfA.1, hfB.1]

theorem run_none (A B : Collider) (hcbA : allCallbacks A) (hcbB : allCallbacks B)
    (ts : List (Vec3 × Vec3)) :
    ∀ st : List Collider, pairState A B false st → (∀ t ∈ ts, ¬ pairOverlap A B t) →
    pairState A B false (runTicks st ts).1 ∧ (runTicks st ts).2 = [] := by
  induction ts with
  | nil =>
    intro st hst _
    exact ⟨hst, rfl⟩
  | cons t ts ih =>
    intro st hst hall
    obtain ⟨hstate, hev⟩ := tick_miss A B hcbA hcbB false st hst t
      (hall t (List.mem_cons_self t ts))
    obtain ⟨hstate', hev'⟩ := ih (CollisionSystem.update (setPair st t.1 t.2)).1 hstate
      (fun x hx => hall x (List.mem_cons_of_mem _ hx))
    constructor
    · exact hstate'
    · show (CollisionSystem.update (setPair st t.1 t.2)).2 ++
        (runTicks (CollisionSystem.update (setPair st t.1 t.2)).1 ts).2 = []
      rw [hev, hev']
      rfl

theorem run_stay (A B : Collider) (hid : A.id ≠ B.id)
    (hcbA : allCallbacks A) (hcbB : allCallbacks B) (ts : List (Vec3 × Vec3)) :
    ∀ st : List Collider, pairState A B true st → (∀ t ∈ ts, pairOverlap A B t) →
    pairState A B true (runTicks st ts).1 ∧
    (runTicks st ts).2 = repeatStays A.id B.id ts.length := by
  induction ts with
  | nil =>
    intro st hst _
    exact ⟨hst, rfl⟩
  | cons t ts ih =>
    intro st hst hall
    obtain ⟨hstate, hev⟩ := tick_overlap A B hid hcbA hcbB true st hst t
      (hall t (List.mem_cons_self t ts))
    obtain ⟨hstate', hev'⟩ := ih (CollisionSystem.update (setPair st t.1 t.2)).1 hstate
      (fun x hx => hall x (List.mem_cons_of_mem _ hx))
    constructor
    · exact hstate'
    · show (CollisionSystem.update (setPair st t.1 t.2)).2 ++
        (runTicks (CollisionSystem.update (setPair st t.1 t.2)).1 ts).2 =
        repeatStays A.id B.id (ts.length + 1)
      rw [hev, hev']
      simp [repeatStays]

theorem countEvents_append (l1 l2 : List Event) (r : ℕ) (k : EventKind) (o : ℕ) :
    countEvents (l1 ++ l2) r k o = countEvents l1 r k o + countEvents l2 r k o := by
  unfold countEvents
  rw [List.filter_append, List.length_append]

theorem countEvents_singleton (e : Event) (r : ℕ) (k : EventKind) (o : ℕ) :
    countEvents [e] r k o =
      if e.receiver = r ∧ e.kind = k ∧ e.other = o then 1 else 0 := by
  by_cases h : e.receiver = r ∧ e.kind = k ∧ e.other = o
  · rw [if_pos h]
    unfold countEvents
    simp [h]
  · rw [if_neg h]
    unfold countEvents
    simp only [List.filter_cons, List.filter_nil]
    rw [if_neg (by simpa using h)]
    rfl

theorem countEvents_repeatStays (a b : ℕ) (hab : a ≠ b) (k : ℕ) :
    countEvents (repeatStays a b k) a EventKind.stay b = k ∧
    countEvents (repeatStays a b k) b EventKind.stay a = k ∧
    countEvents (repeatStays a b k) a EventKind.enter b = 0 ∧
    countEvents (repeatStays a b k) b EventKind.enter a = 0 ∧
    countEvents (repeatStays a b k) a EventKind.exit b = 0 ∧
    countEvents (repeatStays a b k) b EventKind.exit a = 0 := by
  induction k with
  | zero => simp [repeatStays, countEvents]
  | succ m ih =>
    obtain ⟨i1, i2, i3, i4, i5, i6⟩ := ih
    unfold repeatStays
    rw [show ([⟨a, EventKind.stay, b⟩, ⟨b, EventKind.stay, a⟩] : List Event) ++
        repeatStays a b m = [⟨a, EventKind.stay, b⟩] ++ ([⟨b, EventKind.stay, a⟩] ++
        repeatStays a b m) from by simp]
    repeat rw [countEvents_append]
    refine ⟨?_, ?_, ?_, ?_, ?_, ?_⟩ <;>
      rw [countEvents_singleton, countEvents_singleton] <;>
      simp only [i1, i2, i3, i4, i5, i6] <;>
      simp [hab, Ne.symm hab] <;>
      omega

theorem runTicks_append (st : List Collider) (l1 l2 : List (Vec3 × Vec3)) :
    (runTicks st (l1 ++ l2)).1 = (runTicks (runTicks st l1).1 l2).1 ∧
    (runTicks st (l1 ++ l2)).2 =
      (runTicks st l1).2 ++ (runTicks (runTicks st l1).1 l2).2 := by
  induction l1 generalizing st with
  | nil => exact ⟨rfl, rfl⟩
  | cons t ts ih =>
    constructor
    · show (runTicks (CollisionSystem.update (setPair st t.1 t.2)).1 (ts ++ l2)).1 = _
      exact (ih _).1
    · show (CollisionSystem.update (setPair st t.1 t.2)).2 ++
        (runTicks (CollisionSystem.update (setPair st t.1 t.2)).1 (ts ++ l2)).2 = _
      rw [(ih _).2]
      rw [← List.append_assoc]
      rfl

theorem countEvents_two (e1 e2 : Event) (r : ℕ) (k : EventKind) (o : ℕ) :
    countEvents [e1, e2] r k o =
      (if e1.receiver = r ∧ e1.kind = k ∧ e1.other = o then 1 else 0) +
      (if e2.receiver = r ∧ e2.kind = k ∧ e2.other = o then 1 else 0) := by
  rw [show ([e1, e2] : List Event) = [e1] ++ [e2] from rfl, countEvents_append,
    countEvents_singleton, countEvents_singleton]

/-- C5: over a run whose external motion makes the pair not overlap for
some prefix of ticks, overlap for one or more ticks, and then not overlap
again, each side receives exactly one `onCollisionEnter` about the other
(on the first overlapping tick), one `onCollisionStay` per subsequent
overlapping tick, and exactly one `onCollisionExit` (on the first
non-overlapping tick) — in particular `onEnter` never fires twice for the
pair without an intervening `onExit`. -/
theorem spec_C5 (A B : Collider) (pre mid : List (Vec3 × Vec3)) (q : Vec3 × Vec3)
    (hid : A.id ≠ B.id) (hcbA : allCallbacks A) (hcbB : allCallbacks B)
    (hactA : A.activeCollisions = []) (hactB : B.activeCollisions = [])
    (hpre : ∀ t ∈ pre, ¬ pairOverlap A B t)
    (hmid : ∀ t ∈ mid, pairOverlap A B t)
    (hne : mid ≠ []) (hq : ¬ pairOverlap A B q) :
    countEvents (runTicks [A, B] (pre ++ mid ++ [q])).2 A.id EventKind.enter B.id = 1 ∧
    countEvents (runTicks [A, B] (pre ++ mid ++ [q])).2 A.id EventKind.stay B.id =
      mid.length - 1 ∧
    countEvents (runTicks [A, B] (pre ++ mid ++ [q])).2 A.id EventKind.exit B.id = 1 ∧
    countEvents (runTicks [A, B] (pre ++ mid ++ [q])).2 B.id EventKind.enter A.id = 1 ∧
    countEvents (runTicks [A, B] (pre ++ mid ++ [q])).2 B.id EventKind.stay A.id =
      mid.length - 1 ∧
    countEvents (runTicks [A, B] (pre ++ mid ++ [q])).2 B.id EventKind.exit A.id = 1 := by
  obtain ⟨m, ms, rfl⟩ : ∃ m ms, mid = m :: ms := by
    cases mid with
    | nil => exact absurd rfl hne
    | cons m ms => exact ⟨m, ms, rfl⟩
  have hst0 : pairState A B false [A, B] :=
    ⟨A, B, rfl, staticEq_refl A, staticEq_refl B, by rw [hactA]; rfl, by rw [hactB]; rfl⟩
  obtain ⟨hs1, he1⟩ := run_none A B hcbA hcbB pre [A, B] hst0 hpre
  obtain ⟨hs2, he2⟩ := tick_overlap A B hid hcbA hcbB false _ hs1 m
    (hmid m (List.mem_cons_self m ms))
  obtain ⟨hs3, he3⟩ := run_stay A B hid hcbA hcbB ms _ hs2
    (fun x hx => hmid x (List.mem_cons_of_mem _ hx))
  obtain ⟨hs4, he4⟩ := tick_miss A B hcbA hcbB true _ hs3 q hq
  have hsplit : (runTicks [A, B] (pre ++ (m :: ms) ++ [q])).2 =
      [] ++ ([⟨A.id, EventKind.enter, B.id⟩, ⟨B.id, EventKind.enter, A.id⟩] ++
        (repeatStays A.id B.id ms.length ++
          [⟨A.id, EventKind.exit, B.id⟩, ⟨B.id, EventKind.exit, A.id⟩])) := by
    rw [List.append_assoc]
    rw [(runTicks_append [A, B] pre ((m :: ms) ++ [q])).2]
    rw [he1]
    congr 1
    show (CollisionSystem.update (setPair (runTicks [A, B] pre).1 m.1 m.2)).2 ++
      (runTicks (CollisionSystem.update (setPair (runTicks [A, B] pre).1 m.1 m.2)).1
        (ms ++ [q])).2 = _
    rw [he2]
    congr 1
    rw [(runTicks_append _ ms [q]).2]
    rw [he3]
    congr 1
    show (CollisionSystem.update (setPair _ q.1 q.2)).2 ++ (runTicks _ []).2 = _
    rw [he4]
    rfl
  have hcnt := countEvents_repeatStays A.id B.id hid ms.length
  refine ⟨?_, ?_, ?_, ?_, ?_, ?_⟩ <;>
    rw [hsplit] <;>
    simp only [List.nil_append] <;>
    rw [countEvents_append, countEvents_append, countEvents_two, countEvents_two] <;>
    simp [hcnt.1, hcnt.2.1, hcnt.2.2.1, hcnt.2.2.2.1, hcnt.2.2.2.2.1, hcnt.2.2.2.2.2,
      hid, Ne.symm hid]

theorem Vec3.add_zero_right (v : Vec3) : Vec3.add v Vec3.zero = v := by
  unfold Vec3.add Vec3.zero
  ext <;> dsimp <;> ring

theorem narrowTest_spheres (a b : Collider) (ra rb : ℝ)
    (ha : a.shape = Shape.sphere ra) (hb : b.shape = Shape.sphere rb) :
    CollisionSystem.narrowTest a b ↔
      SphereCollider.intersectsSphere a.worldPosition ra b.worldPosition rb := by
  unfold CollisionSystem.narrowTest Collider.intersectsSphereDyn Collider.typeTag
    Collider.radius
  simp [ha, hb, Shape.typeTag, Shape.radius]

theorem w5_pos (p : Vec3) :
    ({ w5A with parent := some p } : Collider).updateWorldPosition.worldPosition = p ∧
    ({ w5B with parent := some p } : Collider).updateWorldPosition.worldPosition = p := by
  constructor <;>
    rw [Collider.uwp_wp_of_parent _ p rfl] <;>
    exact Vec3.add_zero_right p

theorem dist_0_1 : Vec3.distanceTo ⟨0, 0, 0⟩ ⟨1, 0, 0⟩ = 1 := by
  unfold Vec3.distanceTo Vec3.length Vec3.lengthSq Vec3.sub
  dsimp only
  rw [show ((0 : ℝ) - 1) * (0 - 1) + (0 - 0) * (0 - 0) + (0 - 0) * (0 - 0) = 1 ^ 2 by norm_num,
    Real.sqrt_sq (by norm_num : (0 : ℝ) ≤ 1)]

theorem dist_0_5 : Vec3.distanceTo ⟨0, 0, 0⟩ ⟨5, 0, 0⟩ = 5 := by
  unfold Vec3.distanceTo Vec3.length Vec3.lengthSq Vec3.sub
  dsimp only
  rw [show ((0 : ℝ) - 5) * (0 - 5) + (0 - 0) * (0 - 0) + (0 - 0) * (0 - 0) = 5 ^ 2 by norm_num,
    Real.sqrt_sq (by norm_num : (0 : ℝ) ≤ 5)]

theorem w5_overlap_near : pairOverlap w5A w5B (⟨0, 0, 0⟩, ⟨1, 0, 0⟩) := by
  refine ⟨by decide, ?_⟩
  rw [narrowTest_spheres _ _ 1 1 (by rw [Collider.uwp_shape]; rfl) (by rw [Collider.uwp_shape]; rfl)]
  rw [(w5_pos ⟨0, 0, 0⟩).1, (w5_pos ⟨1, 0, 0⟩).2]
  unfold SphereCollider.intersectsSphere
  rw [dist_0_1]
  norm_num

theorem w5_overlap_far : ¬ pairOverlap w5A w5B (⟨0, 0, 0⟩, ⟨5, 0, 0⟩) := by
  rintro ⟨-, hnar⟩
  rw [narrowTest_spheres _ _ 1 1 (by rw [Collider.uwp_shape]; rfl) (by rw [Collider.uwp_shape]; rfl)]
    at hnar
  rw [(w5_pos ⟨0, 0, 0⟩).1, (w5_pos ⟨5, 0, 0⟩).2] at hnar
  unfold SphereCollider.intersectsSphere at hnar
  rw [dist_0_5] at hnar
  norm_num at hnar

theorem spec_C5_witness :
    (¬ pairOverlap w5A w5B (⟨0, 0, 0⟩, ⟨5, 0, 0⟩)) ∧
    pairOverlap w5A w5B (⟨0, 0, 0⟩, ⟨1, 0, 0⟩) ∧
    countEvents (runTicks [w5A, w5B] ([((⟨0, 0, 0⟩ : Vec3), (⟨5, 0, 0⟩ : Vec3))] ++
        [((⟨0, 0, 0⟩ : Vec3), (⟨1, 0, 0⟩ : Vec3))] ++
        [((⟨0, 0, 0⟩ : Vec3), (⟨5, 0, 0⟩ : Vec3))])).2
      w5A.id EventKind.enter w5B.id = 1 ∧
    countEvents (runTicks [w5A, w5B] ([((⟨0, 0, 0⟩ : Vec3), (⟨5, 0, 0⟩ : Vec3))] ++
        [((⟨0, 0, 0⟩ : Vec3), (⟨1, 0, 0⟩ : Vec3))] ++
        [((⟨0, 0, 0⟩ : Vec3), (⟨5, 0, 0⟩ : Vec3))])).2
      w5A.id EventKind.stay w5B.id = 0 ∧
    countEvents (runTicks [w5A, w5B] ([((⟨0, 0, 0⟩ : Vec3), (⟨5, 0, 0⟩ : Vec3))] ++
        [((⟨0, 0, 0⟩ : Vec3), (⟨1, 0, 0⟩ : Vec3))] ++
        [((⟨0, 0, 0⟩ : Vec3), (⟨5, 0, 0⟩ : Vec3))])).2
      w5A.id EventKind.exit w5B.id = 1 ∧
    countEvents (runTicks [w5A, w5B] ([((⟨0, 0, 0⟩ : Vec3), (⟨5, 0, 0⟩ : Vec3))] ++
        [((⟨0, 0, 0⟩ : Vec3), (⟨1, 0, 0⟩ : Vec3))] ++
        [((⟨0, 0, 0⟩ : Vec3), (⟨5, 0, 0⟩ : Vec3))])).2
      w5B.id EventKind.enter w5A.id = 1 := by
  have h := spec_C5 w5A w5B [((⟨0, 0, 0⟩ : Vec3), (⟨5, 0, 0⟩ : Vec3))]
    [((⟨0, 0, 0⟩ : Vec3), (⟨1, 0, 0⟩ : Vec3))] ((⟨0, 0, 0⟩ : Vec3), (⟨5, 0, 0⟩ : Vec3))
    (by decide) ⟨rfl, rfl, rfl⟩ ⟨rfl, rfl, rfl⟩ rfl rfl
    (by
      intro t ht
      rw [List.mem_singleton] at ht
      subst ht
      exact w5_overlap_far)
    (by
      intro t ht
      rw [List.mem_singleton] at ht
      subst ht
      exact w5_overlap_near)
    (by simp)
    w5_overlap_far
  exact ⟨w5_overlap_far, w5_overlap_near, h.1, by simpa using h.2.1, h.2.2.1, h.2.2.2.1⟩
